import Mathlib

/-!
Verification development for the QuantumOS kernel core: a shallow embedding
of the IPC subsystem (`src/kernel/src/ipc/ipc.c`), the process ready queues
(`src/kernel/src/process.c`), the resonant scheduler
(`src/kernel/src/resonance/resonant_scheduler.c`) and the page-table walker
with its frame allocator (`src/kernel/src/memory.c`), together with theorems
about the queue, coupling, chiral-stability and mapping behaviour.

Conventions of the embedding:
* C arrays become functions `Nat → α` updated pointwise with `upd`;
* the intrusive doubly linked message queues become a `List` holding the
  chain from `head` to `tail` (walking `next` from the head is list
  traversal; `head == NULL` is the empty list), while the separate `count`
  field of the C struct is kept as a separate field, exactly as in the
  source — the source does not always keep the two in sync;
* the global entry pool (a 16384-slot bitmap) is represented by the number
  of bits set: `queue_alloc_entry` succeeds exactly when a zero bit exists,
  i.e. when `pool_used < ENTRY_POOL_SIZE`, and entries are interchangeable;
* 32-bit counters wrap with `% 2 ^ 32`; pointers that only serve as opaque
  addresses become `Nat` with `0` for `NULL`;
* `get_current_pid` returns `IPC_PID_KERNEL = 0` and `get_timestamp_ns`
  returns `0`, exactly as the placeholder implementations in the source;
* C `double` values become exact rationals `ℚ` (the scheduler claims settled
  here only involve arithmetic that is exact in IEEE double as well).
-/

set_option maxRecDepth 100000
set_option maxHeartbeats 1000000

namespace QOS

/-- Pointwise update of a function modelling a C array write `f[i] = v`. -/
def upd {α : Type} (f : Nat → α) (i : Nat) (v : α) : Nat → α :=
  fun j => if j = i then v else f j

theorem upd_same {α : Type} (f : Nat → α) (i : Nat) (v : α) : upd f i v i = v := by
  simp [upd]

theorem upd_other {α : Type} (f : Nat → α) (i j : Nat) (v : α) (h : j ≠ i) :
    upd f i v j = f j := by
  simp [upd, h]

namespace IPC

/-! ### Constants from `ipc.c` / `ipc.h` -/

def MAX_PROCESSES : Nat := 256
def MAX_PORTS : Nat := 128
def MAX_SHARED_REGIONS : Nat := 64
def MAX_CHANNELS : Nat := 64
def MAX_GRANTS_PER_REGION : Nat := 16
def IPC_MAX_MESSAGE_SIZE : Nat := 4096
def IPC_MAX_QUEUE_SIZE : Nat := 64
def ENTRY_POOL_SIZE : Nat := MAX_PROCESSES * IPC_MAX_QUEUE_SIZE
def IPC_PID_KERNEL : Nat := 0
def IPC_PID_ANY : Nat := 0xFFFFFFFF
def IPC_MSG_REPLY : Nat := 0x0002
def IPC_SHARE_READ : Nat := 0x01
def IPC_SHARE_WRITE : Nat := 0x02
def IPC_PORT_CLOSED : Nat := 0
def IPC_PORT_OPEN : Nat := 1
def IPC_PORT_LISTENING : Nat := 2

/-- Result codes of `ipc_result_t`. -/
inductive IpcResult where
  | SUCCESS
  | INVALID_RECEIVER
  | INVALID_SENDER
  | MESSAGE_TOO_LARGE
  | PERMISSION_DENIED
  | BUFFER_FULL
  | TIMEOUT
  | NO_MESSAGE
  | INVALID_PORT
  | PORT_CLOSED
  | OUT_OF_MEMORY
  | INVALID_ARG
  | ALREADY_EXISTS
  | NOT_SUPPORTED
  | NOT_FOUND
deriving DecidableEq, Repr

/-- `ipc_message_t`: fixed header plus payload bytes. -/
structure Message where
  sender_id : Nat
  receiver_id : Nat
  message_type : Nat
  message_id : Nat
  reply_to : Nat
  length : Nat
  timestamp : Nat
  deadline : Nat
  data : List Nat
deriving DecidableEq, Repr

/-- `ipc_queue_t`: `msgs` is the `head → tail` chain of queue entries; the
`count` field is carried separately as in the C struct. -/
structure Queue where
  msgs : List Message
  count : Nat
  max_size : Nat
  dropped : Nat
  state : Nat
deriving DecidableEq, Repr

/-- `ipc_port_t`. -/
structure Port where
  port_id : Nat
  owner_id : Nat
  name : String
  state : Nat
  queue : Queue
deriving DecidableEq, Repr

/-- `ipc_shared_region_t`. -/
structure SharedRegion where
  region_id : Nat
  owner_id : Nat
  physical_addr : Nat
  virtual_addr : Nat
  size : Nat
  permissions : Nat
  ref_count : Nat
  is_active : Bool
deriving DecidableEq, Repr

/-- `ipc_region_grant_t`. -/
structure RegionGrant where
  region_id : Nat
  grantee_id : Nat
  mapped_addr : Nat
  permissions : Nat
  is_active : Bool
deriving DecidableEq, Repr

/-- `ipc_channel_t`. -/
structure Channel where
  channel_id : Nat
  endpoint_a : Nat
  endpoint_b : Nat
  queue_a_to_b : Queue
  queue_b_to_a : Queue
  is_active : Bool
deriving DecidableEq, Repr

/-- The whole static state of `ipc.c`. -/
structure IpcState where
  process_queues : Nat → Queue
  queue_initialized : Nat → Bool
  ports : Nat → Port
  next_port_id : Nat
  shared_regions : Nat → SharedRegion
  next_region_id : Nat
  region_grants : Nat → Nat → RegionGrant
  channels : Nat → Channel
  next_channel_id : Nat
  next_message_id : Nat
  total_sent : Nat
  total_received : Nat
  total_dropped : Nat
  ipc_up : Bool
  pool_used : Nat

/-- Placeholder `get_current_pid` from the source: always the kernel pid. -/
def get_current_pid : Nat := IPC_PID_KERNEL

/-- Placeholder `get_timestamp_ns` from the source: always 0. -/
def get_timestamp_ns : Nat := 0

/-- All-zero queue (the value of the static arrays before `ipc_init`). -/
def zero_queue : Queue :=
  { msgs := [], count := 0, max_size := 0, dropped := 0, state := 0 }

/-- A freshly initialized queue as written by `ipc_init`/`ipc_process_init`/
`ipc_port_create`/`ipc_channel_create` (only `state` differs by caller). -/
def fresh_queue (st : Nat) : Queue :=
  { msgs := [], count := 0, max_size := IPC_MAX_QUEUE_SIZE, dropped := 0, state := st }

/-- `queue_enqueue`, acting on the queue, the entry pool and the global
dropped counter.  The `!queue || !msg` null check of the C code cannot arise
in the embedding. -/
def queue_enqueue (q : Queue) (pool_used total_dropped : Nat) (msg : Message) :
    IpcResult × Queue × Nat × Nat :=
  if q.count ≥ q.max_size then
    (.BUFFER_FULL, { q with dropped := q.dropped + 1 }, pool_used, total_dropped + 1)
  else if ENTRY_POOL_SIZE ≤ pool_used then
    (.OUT_OF_MEMORY, { q with dropped := q.dropped + 1 }, pool_used, total_dropped + 1)
  else
    (.SUCCESS, { q with msgs := q.msgs ++ [msg], count := q.count + 1 },
     pool_used + 1, total_dropped)

/-- Unlink the first entry whose `sender_id` matches, as the filter loop of
`queue_dequeue` does. -/
def remove_first_from (sender : Nat) : List Message → Option (Message × List Message)
  | [] => none
  | m :: rest =>
    if m.sender_id = sender then some (m, rest)
    else
      match remove_first_from sender rest with
      | none => none
      | some (f, rest') => some (f, m :: rest')

/-- `queue_dequeue`.  `filter = none` models a NULL `filter_sender` pointer. -/
def queue_dequeue (q : Queue) (pool_used : Nat) (filter : Option Nat) :
    IpcResult × Option Message × Queue × Nat :=
  if q.count = 0 ∨ q.msgs = [] then (.NO_MESSAGE, none, q, pool_used)
  else
    match filter with
    | some f =>
      if f ≠ IPC_PID_ANY then
        match remove_first_from f q.msgs with
        | none => (.NO_MESSAGE, none, q, pool_used)
        | some (m, rest) =>
          (.SUCCESS, some m, { q with msgs := rest, count := q.count - 1 }, pool_used - 1)
      else
        match q.msgs with
        | [] => (.NO_MESSAGE, none, q, pool_used)
        | m :: rest =>
          (.SUCCESS, some m, { q with msgs := rest, count := q.count - 1 }, pool_used - 1)
    | none =>
      match q.msgs with
      | [] => (.NO_MESSAGE, none, q, pool_used)
      | m :: rest =>
        (.SUCCESS, some m, { q with msgs := rest, count := q.count - 1 }, pool_used - 1)

/-- First index `i < n` satisfying `p`, mirroring the ascending linear scans
of the lookup helpers. -/
def find_idx (p : Nat → Bool) (n : Nat) : Option Nat :=
  (List.range n).find? p

/-- `find_port_by_id`. -/
def find_port_by_id (s : IpcState) (port_id : Nat) : Option Nat :=
  find_idx (fun i => (s.ports i).port_id = port_id ∧ (s.ports i).state ≠ IPC_PORT_CLOSED)
    MAX_PORTS

/-- `find_port_by_name` (`str_equal` is string equality). -/
def find_port_by_name (s : IpcState) (name : String) : Option Nat :=
  find_idx (fun i => (s.ports i).state ≠ IPC_PORT_CLOSED ∧ (s.ports i).name = name)
    MAX_PORTS

/-- `find_region`. -/
def find_region (s : IpcState) (region_id : Nat) : Option Nat :=
  find_idx (fun i => (s.shared_regions i).region_id = region_id ∧ (s.shared_regions i).is_active)
    MAX_SHARED_REGIONS

/-- `find_channel`. -/
def find_channel (s : IpcState) (channel_id : Nat) : Option Nat :=
  find_idx (fun i => (s.channels i).channel_id = channel_id ∧ (s.channels i).is_active)
    MAX_CHANNELS

/-- The zero-initialized static state before `ipc_init` runs. -/
def initial_state : IpcState :=
  { process_queues := fun _ => zero_queue
    queue_initialized := fun _ => false
    ports := fun _ => { port_id := 0, owner_id := 0, name := "", state := 0, queue := zero_queue }
    next_port_id := 1
    shared_regions := fun _ =>
      { region_id := 0, owner_id := 0, physical_addr := 0, virtual_addr := 0,
        size := 0, permissions := 0, ref_count := 0, is_active := false }
    next_region_id := 1
    region_grants := fun _ _ =>
      { region_id := 0, grantee_id := 0, mapped_addr := 0, permissions := 0, is_active := false }
    channels := fun _ =>
      { channel_id := 0, endpoint_a := 0, endpoint_b := 0,
        queue_a_to_b := zero_queue, queue_b_to_a := zero_queue, is_active := false }
    next_channel_id := 1
    next_message_id := 1
    total_sent := 0
    total_received := 0
    total_dropped := 0
    ipc_up := false
    pool_used := 0 }

/-- `ipc_process_init`. -/
def ipc_process_init (s : IpcState) (pid : Nat) : IpcResult × IpcState :=
  if MAX_PROCESSES ≤ pid then (.INVALID_ARG, s)
  else if s.queue_initialized pid then (.SUCCESS, s)
  else
    (.SUCCESS,
     { s with process_queues := upd s.process_queues pid (fresh_queue IPC_PORT_OPEN)
              queue_initialized := upd s.queue_initialized pid true })

/-- `ipc_init`.  The loops re-initializing every static slot write exactly the
values they already hold in `initial_state`, except for the queues whose
`max_size` becomes 64 and `state` `IPC_PORT_CLOSED`. -/
def ipc_init (s : IpcState) : IpcResult × IpcState :=
  if s.ipc_up then (.SUCCESS, s)
  else
    let s1 : IpcState :=
      { initial_state with process_queues := fun _ => fresh_queue IPC_PORT_CLOSED }
    let s2 := (ipc_process_init s1 IPC_PID_KERNEL).2
    (.SUCCESS, { s2 with ipc_up := true })

/-- `ipc_send`.  The `timeout_ns` argument is accepted and ignored as in the
source; the `!msg` null check cannot arise. -/
def ipc_send (s : IpcState) (receiver_id : Nat) (msg : Message) : IpcResult × IpcState :=
  if ¬ s.ipc_up then (.NOT_SUPPORTED, s)
  else if MAX_PROCESSES ≤ receiver_id then (.INVALID_RECEIVER, s)
  else if ¬ s.queue_initialized receiver_id then (.INVALID_RECEIVER, s)
  else if IPC_MAX_MESSAGE_SIZE < msg.length then (.MESSAGE_TOO_LARGE, s)
  else
    let send_msg : Message :=
      { msg with sender_id := get_current_pid, receiver_id := receiver_id,
                 message_id := s.next_message_id, timestamp := get_timestamp_ns }
    let s1 := { s with next_message_id := (s.next_message_id + 1) % 2 ^ 32 }
    let r := queue_enqueue (s1.process_queues receiver_id) s1.pool_used s1.total_dropped send_msg
    let s2 := { s1 with process_queues := upd s1.process_queues receiver_id r.2.1,
                        pool_used := r.2.2.1, total_dropped := r.2.2.2 }
    if r.1 = .SUCCESS then (r.1, { s2 with total_sent := s2.total_sent + 1 })
    else (r.1, s2)

/-- `ipc_receive`.  `filter = none` models a NULL `sender_id` pointer. -/
def ipc_receive (s : IpcState) (filter : Option Nat) : IpcResult × Option Message × IpcState :=
  if ¬ s.ipc_up then (.NOT_SUPPORTED, none, s)
  else
    let pid := get_current_pid
    if MAX_PROCESSES ≤ pid ∨ ¬ s.queue_initialized pid then (.INVALID_RECEIVER, none, s)
    else
      let r := queue_dequeue (s.process_queues pid) s.pool_used filter
      let s1 := { s with process_queues := upd s.process_queues pid r.2.2.1,
                         pool_used := r.2.2.2 }
      if r.1 = .SUCCESS then (r.1, r.2.1, { s1 with total_received := s1.total_received + 1 })
      else (r.1, r.2.1, s1)

/-- `ipc_reply`. -/
def ipc_reply (s : IpcState) (original_msg reply : Message) : IpcResult × IpcState :=
  let reply_msg :=
    { reply with message_type := Nat.lor reply.message_type IPC_MSG_REPLY,
                 reply_to := original_msg.message_id }
  ipc_send s original_msg.sender_id reply_msg

/-- `ipc_call`. -/
def ipc_call (s : IpcState) (receiver_id : Nat) (request : Message) :
    IpcResult × Option Message × IpcState :=
  let r := ipc_send s receiver_id request
  if r.1 ≠ .SUCCESS then (r.1, none, r.2)
  else ipc_receive r.2 (some receiver_id)

/-- `ipc_port_create`. -/
def ipc_port_create (s : IpcState) (name : String) : IpcResult × Option Nat × IpcState :=
  if ¬ s.ipc_up then (.NOT_SUPPORTED, none, s)
  else if (find_port_by_name s name).isSome then (.ALREADY_EXISTS, none, s)
  else
    match find_idx (fun i => (s.ports i).state = IPC_PORT_CLOSED) MAX_PORTS with
    | none => (.OUT_OF_MEMORY, none, s)
    | some i =>
      let port : Port :=
        { port_id := s.next_port_id, owner_id := get_current_pid,
          name := name.take 63, state := IPC_PORT_LISTENING,
          queue := fresh_queue IPC_PORT_OPEN }
      (.SUCCESS, some s.next_port_id,
       { s with ports := upd s.ports i port,
                next_port_id := (s.next_port_id + 1) % 2 ^ 32 })

/-- `ipc_port_destroy`.  The drain loop walks `next` from `head` freeing every
entry and leaves `head = NULL`; it resets neither `count` nor `tail`. -/
def ipc_port_destroy (s : IpcState) (port_id : Nat) : IpcResult × IpcState :=
  match find_port_by_id s port_id with
  | none => (.INVALID_PORT, s)
  | some i =>
    let port := s.ports i
    if port.owner_id ≠ get_current_pid ∧ get_current_pid ≠ IPC_PID_KERNEL then
      (.PERMISSION_DENIED, s)
    else
      let freed := port.queue.msgs.length
      let port' :=
        { port with state := IPC_PORT_CLOSED, port_id := 0, name := "",
                    queue := { port.queue with msgs := [] } }
      (.SUCCESS, { s with ports := upd s.ports i port', pool_used := s.pool_used - freed })

/-- `ipc_port_lookup`. -/
def ipc_port_lookup (s : IpcState) (name : String) : IpcResult × Option Nat :=
  match find_port_by_name s name with
  | none => (.NOT_FOUND, none)
  | some i => (.SUCCESS, some ((s.ports i).port_id))

/-- `ipc_port_send`. -/
def ipc_port_send (s : IpcState) (port_id : Nat) (msg : Message) : IpcResult × IpcState :=
  match find_port_by_id s port_id with
  | none => (.INVALID_PORT, s)
  | some i =>
    let port := s.ports i
    if port.state ≠ IPC_PORT_LISTENING then (.PORT_CLOSED, s)
    else
      let send_msg : Message :=
        { msg with sender_id := get_current_pid, receiver_id := port.owner_id,
                   message_id := s.next_message_id, timestamp := get_timestamp_ns }
      let s1 := { s with next_message_id := (s.next_message_id + 1) % 2 ^ 32 }
      let r := queue_enqueue port.queue s1.pool_used s1.total_dropped send_msg
      let s2 := { s1 with ports := upd s1.ports i { port with queue := r.2.1 },
                          pool_used := r.2.2.1, total_dropped := r.2.2.2 }
      if r.1 = .SUCCESS then (r.1, { s2 with total_sent := s2.total_sent + 1 })
      else (r.1, s2)

/-- `ipc_port_receive`. -/
def ipc_port_receive (s : IpcState) (port_id : Nat) : IpcResult × Option Message × IpcState :=
  match find_port_by_id s port_id with
  | none => (.INVALID_PORT, none, s)
  | some i =>
    let port := s.ports i
    if port.owner_id ≠ get_current_pid then (.PERMISSION_DENIED, none, s)
    else
      let r := queue_dequeue port.queue s.pool_used (some IPC_PID_ANY)
      let s1 := { s with ports := upd s.ports i { port with queue := r.2.2.1 },
                         pool_used := r.2.2.2 }
      if r.1 = .SUCCESS then (r.1, r.2.1, { s1 with total_received := s1.total_received + 1 })
      else (r.1, r.2.1, s1)

/-- Deactivate all grants of one region slot (the clearing loops of
`ipc_share_create` and `ipc_share_destroy`). -/
def clear_grants (gs : Nat → RegionGrant) : Nat → RegionGrant :=
  fun j => if j < MAX_GRANTS_PER_REGION then { gs j with is_active := false } else gs j

/-- `ipc_share_create`.  The physical allocation is the commented-out
placeholder of the source: `phys = NULL`. -/
def ipc_share_create (s : IpcState) (size : Nat) : IpcResult × Option SharedRegion × IpcState :=
  if ¬ s.ipc_up then (.NOT_SUPPORTED, none, s)
  else if size = 0 then (.INVALID_ARG, none, s)
  else
    match find_idx (fun i => ¬ (s.shared_regions i).is_active) MAX_SHARED_REGIONS with
    | none => (.OUT_OF_MEMORY, none, s)
    | some slot =>
      let reg : SharedRegion :=
        { region_id := s.next_region_id, owner_id := get_current_pid,
          physical_addr := 0, virtual_addr := 0, size := size,
          permissions := Nat.lor IPC_SHARE_READ IPC_SHARE_WRITE,
          ref_count := 1, is_active := true }
      (.SUCCESS, some reg,
       { s with shared_regions := upd s.shared_regions slot reg,
                next_region_id := (s.next_region_id + 1) % 2 ^ 32,
                region_grants := upd s.region_grants slot (clear_grants (s.region_grants slot)) })

/-- `ipc_share_destroy`. -/
def ipc_share_destroy (s : IpcState) (region_id : Nat) : IpcResult × IpcState :=
  match find_region s region_id with
  | none => (.NOT_FOUND, s)
  | some slot =>
    let reg := s.shared_regions slot
    if reg.owner_id ≠ get_current_pid ∧ get_current_pid ≠ IPC_PID_KERNEL then
      (.PERMISSION_DENIED, s)
    else
      (.SUCCESS,
       { s with region_grants := upd s.region_grants slot (clear_grants (s.region_grants slot)),
                shared_regions :=
                  upd s.shared_regions slot { reg with is_active := false, region_id := 0 } })

/-- Outcome of the grant-slot scan in `ipc_share_grant`. -/
inductive GrantScan where
  | free (i : Nat)
  | dup
  | exhausted
deriving DecidableEq, Repr

/-- The scan loop of `ipc_share_grant`, verbatim: it stops at the FIRST
inactive slot, so an existing grant stored after that slot is never seen by
the duplicate check. -/
def grant_scan (gs : Nat → RegionGrant) (grantee_id : Nat) : Nat → Nat → GrantScan
  | _, 0 => .exhausted
  | i, n + 1 =>
    if ¬ (gs i).is_active then .free i
    else if (gs i).grantee_id = grantee_id then .dup
    else grant_scan gs grantee_id (i + 1) n

/-- `ipc_share_grant`. -/
def ipc_share_grant (s : IpcState) (region_id grantee_id permissions : Nat) :
    IpcResult × Option RegionGrant × IpcState :=
  match find_region s region_id with
  | none => (.NOT_FOUND, none, s)
  | some slot =>
    let reg := s.shared_regions slot
    if reg.owner_id ≠ get_current_pid then (.PERMISSION_DENIED, none, s)
    else
      match grant_scan (s.region_grants slot) grantee_id 0 MAX_GRANTS_PER_REGION with
      | .dup => (.ALREADY_EXISTS, none, s)
      | .exhausted => (.OUT_OF_MEMORY, none, s)
      | .free i =>
        let g : RegionGrant :=
          { region_id := region_id, grantee_id := grantee_id,
            permissions := Nat.land permissions reg.permissions,
            mapped_addr := 0, is_active := true }
        (.SUCCESS, some g,
         { s with region_grants := upd s.region_grants slot (upd (s.region_grants slot) i g),
                  shared_regions :=
                    upd s.shared_regions slot { reg with ref_count := reg.ref_count + 1 } })

/-- `ipc_share_revoke`. -/
def ipc_share_revoke (s : IpcState) (region_id grantee_id : Nat) : IpcResult × IpcState :=
  match find_region s region_id with
  | none => (.NOT_FOUND, s)
  | some slot =>
    let reg := s.shared_regions slot
    if reg.owner_id ≠ get_current_pid ∧ get_current_pid ≠ IPC_PID_KERNEL then
      (.PERMISSION_DENIED, s)
    else
      match find_idx (fun i =>
          ((s.region_grants slot i).is_active ∧
           (s.region_grants slot i).grantee_id = grantee_id)) MAX_GRANTS_PER_REGION with
      | none => (.NOT_FOUND, s)
      | some i =>
        let g := s.region_grants slot i
        (.SUCCESS,
         { s with region_grants :=
                    upd s.region_grants slot (upd (s.region_grants slot) i
                      { g with is_active := false }),
                  shared_regions :=
                    upd s.shared_regions slot { reg with ref_count := reg.ref_count - 1 } })

/-- `ipc_channel_create`. -/
def ipc_channel_create (s : IpcState) (endpoint_a endpoint_b : Nat) :
    IpcResult × Option Nat × IpcState :=
  if ¬ s.ipc_up then (.NOT_SUPPORTED, none, s)
  else if MAX_PROCESSES ≤ endpoint_a ∨ MAX_PROCESSES ≤ endpoint_b then (.INVALID_ARG, none, s)
  else
    match find_idx (fun i => ¬ (s.channels i).is_active) MAX_CHANNELS with
    | none => (.OUT_OF_MEMORY, none, s)
    | some i =>
      let ch : Channel :=
        { channel_id := s.next_channel_id, endpoint_a := endpoint_a, endpoint_b := endpoint_b,
          queue_a_to_b := fresh_queue IPC_PORT_OPEN, queue_b_to_a := fresh_queue IPC_PORT_OPEN,
          is_active := true }
      (.SUCCESS, some s.next_channel_id,
       { s with channels := upd s.channels i ch,
                next_channel_id := (s.next_channel_id + 1) % 2 ^ 32 })

/-- `ipc_channel_destroy`.  As with ports, both drain loops leave only
`head = NULL`; `count` and `tail` are not reset. -/
def ipc_channel_destroy (s : IpcState) (channel_id : Nat) : IpcResult × IpcState :=
  match find_channel s channel_id with
  | none => (.NOT_FOUND, s)
  | some i =>
    let ch := s.channels i
    let freed := ch.queue_a_to_b.msgs.length + ch.queue_b_to_a.msgs.length
    let ch' :=
      { ch with is_active := false, channel_id := 0,
                queue_a_to_b := { ch.queue_a_to_b with msgs := [] },
                queue_b_to_a := { ch.queue_b_to_a with msgs := [] } }
    (.SUCCESS, { s with channels := upd s.channels i ch', pool_used := s.pool_used - freed })

/-- `ipc_channel_send`. -/
def ipc_channel_send (s : IpcState) (channel_id : Nat) (msg : Message) : IpcResult × IpcState :=
  match find_channel s channel_id with
  | none => (.NOT_FOUND, s)
  | some i =>
    let ch := s.channels i
    let pid := get_current_pid
    if pid ≠ ch.endpoint_a ∧ pid ≠ ch.endpoint_b then (.PERMISSION_DENIED, s)
    else
      let to_b := pid = ch.endpoint_a
      let q := if to_b then ch.queue_a_to_b else ch.queue_b_to_a
      let send_msg : Message :=
        { msg with sender_id := pid,
                   receiver_id := if to_b then ch.endpoint_b else ch.endpoint_a,
                   message_id := s.next_message_id, timestamp := get_timestamp_ns }
      let s1 := { s with next_message_id := (s.next_message_id + 1) % 2 ^ 32 }
      let r := queue_enqueue q s1.pool_used s1.total_dropped send_msg
      let ch' := if to_b then { ch with queue_a_to_b := r.2.1 }
                 else { ch with queue_b_to_a := r.2.1 }
      let s2 := { s1 with channels := upd s1.channels i ch',
                          pool_used := r.2.2.1, total_dropped := r.2.2.2 }
      if r.1 = .SUCCESS then (r.1, { s2 with total_sent := s2.total_sent + 1 })
      else (r.1, s2)

/-- `ipc_channel_receive`. -/
def ipc_channel_receive (s : IpcState) (channel_id : Nat) :
    IpcResult × Option Message × IpcState :=
  match find_channel s channel_id with
  | none => (.NOT_FOUND, none, s)
  | some i =>
    let ch := s.channels i
    let pid := get_current_pid
    if pid ≠ ch.endpoint_a ∧ pid ≠ ch.endpoint_b then (.PERMISSION_DENIED, none, s)
    else
      let from_b := pid = ch.endpoint_a
      let q := if from_b then ch.queue_b_to_a else ch.queue_a_to_b
      let r := queue_dequeue q s.pool_used (some IPC_PID_ANY)
      let ch' := if from_b then { ch with queue_b_to_a := r.2.2.1 }
                 else { ch with queue_a_to_b := r.2.2.1 }
      let s1 := { s with channels := upd s.channels i ch', pool_used := r.2.2.2 }
      if r.1 = .SUCCESS then (r.1, r.2.1, { s1 with total_received := s1.total_received + 1 })
      else (r.1, r.2.1, s1)

/-- The port pass of `ipc_process_cleanup`: destroy every open port owned by
the pid, scanning slots in ascending order. -/
def cleanup_ports (pid : Nat) (s : IpcState) : IpcState :=
  (List.range MAX_PORTS).foldl
    (fun acc i =>
      if (acc.ports i).owner_id = pid ∧ (acc.ports i).state ≠ IPC_PORT_CLOSED then
        (ipc_port_destroy acc ((acc.ports i).port_id)).2
      else acc) s

/-- The shared-region pass of `ipc_process_cleanup`. -/
def cleanup_regions (pid : Nat) (s : IpcState) : IpcState :=
  (List.range MAX_SHARED_REGIONS).foldl
    (fun acc i =>
      if (acc.shared_regions i).owner_id = pid ∧ (acc.shared_regions i).is_active then
        (ipc_share_destroy acc ((acc.shared_regions i).region_id)).2
      else acc) s

attribute [irreducible] cleanup_ports cleanup_regions

/-- `ipc_process_cleanup`: drain the pid's queue (this one does reset `tail`,
`count` and `state`), then destroy every open port owned by the pid, then
every active region owned by it. -/
def ipc_process_cleanup (s : IpcState) (pid : Nat) : IpcResult × IpcState :=
  if MAX_PROCESSES ≤ pid then (.INVALID_ARG, s)
  else if ¬ s.queue_initialized pid then (.SUCCESS, s)
  else
    let q := s.process_queues pid
    let s1 :=
      { s with process_queues :=
                 upd s.process_queues pid
                   { q with msgs := [], count := 0, state := IPC_PORT_CLOSED },
               pool_used := s.pool_used - q.msgs.length,
               queue_initialized := upd s.queue_initialized pid false }
    (.SUCCESS, cleanup_regions pid (cleanup_ports pid s1))

/-! ### The IPC operation alphabet and step function (for the queue
invariant, claim C2). -/

/-- One call into the public IPC API. -/
inductive IpcOp where
  | opProcessInit (pid : Nat)
  | opProcessCleanup (pid : Nat)
  | opSend (receiver_id : Nat) (msg : Message)
  | opReceive (filter : Option Nat)
  | opReply (original_msg reply : Message)
  | opCall (receiver_id : Nat) (request : Message)
  | opPortCreate (name : String)
  | opPortDestroy (port_id : Nat)
  | opPortSend (port_id : Nat) (msg : Message)
  | opPortReceive (port_id : Nat)
  | opShareCreate (size : Nat)
  | opShareDestroy (region_id : Nat)
  | opShareGrant (region_id grantee_id permissions : Nat)
  | opShareRevoke (region_id grantee_id : Nat)
  | opChannelCreate (endpoint_a endpoint_b : Nat)
  | opChannelDestroy (channel_id : Nat)
  | opChannelSend (channel_id : Nat) (msg : Message)
  | opChannelReceive (channel_id : Nat)

/-- State transformer of one API call (results and out-parameters dropped). -/
def ipc_step (s : IpcState) : IpcOp → IpcState
  | .opProcessInit pid => (ipc_process_init s pid).2
  | .opProcessCleanup pid => (ipc_process_cleanup s pid).2
  | .opSend receiver_id msg => (ipc_send s receiver_id msg).2
  | .opReceive filter => (ipc_receive s filter).2.2
  | .opReply original_msg reply => (ipc_reply s original_msg reply).2
  | .opCall receiver_id request => (ipc_call s receiver_id request).2.2
  | .opPortCreate name => (ipc_port_create s name).2.2
  | .opPortDestroy port_id => (ipc_port_destroy s port_id).2
  | .opPortSend port_id msg => (ipc_port_send s port_id msg).2
  | .opPortReceive port_id => (ipc_port_receive s port_id).2.2
  | .opShareCreate size => (ipc_share_create s size).2.2
  | .opShareDestroy region_id => (ipc_share_destroy s region_id).2
  | .opShareGrant region_id grantee_id permissions =>
      (ipc_share_grant s region_id grantee_id permissions).2.2
  | .opShareRevoke region_id grantee_id => (ipc_share_revoke s region_id grantee_id).2
  | .opChannelCreate endpoint_a endpoint_b => (ipc_channel_create s endpoint_a endpoint_b).2.2
  | .opChannelDestroy channel_id => (ipc_channel_destroy s channel_id).2
  | .opChannelSend channel_id msg => (ipc_channel_send s channel_id msg).2
  | .opChannelReceive channel_id => (ipc_channel_receive s channel_id).2.2

/-- The state reached from boot (`ipc_init` on the zeroed statics) by a
sequence of API calls. -/
def ipc_run (ops : List IpcOp) : IpcState :=
  ops.foldl ipc_step (ipc_init initial_state).2

/-! ### Queue well-formedness -/

/-- A queue whose separate `count` field agrees with its entry chain and
respects its bound: this is exactly "head is null iff count = 0" and
"walking `next` from head reaches tail in count steps" plus `count ≤ max`. -/
def queue_wf (q : Queue) : Prop :=
  q.count = q.msgs.length ∧ q.count ≤ q.max_size

/-- Every live queue — an initialized per-process queue, the queue of a
non-closed port, or a queue of an active channel — is well-formed. -/
def live_queues_wf (s : IpcState) : Prop :=
  (∀ pid, s.queue_initialized pid = true → queue_wf (s.process_queues pid)) ∧
  (∀ i, (s.ports i).state ≠ IPC_PORT_CLOSED → queue_wf ((s.ports i).queue)) ∧
  (∀ i, (s.channels i).is_active = true →
    queue_wf ((s.channels i).queue_a_to_b) ∧ queue_wf ((s.channels i).queue_b_to_a))

theorem queue_wf_fresh (st : Nat) : queue_wf (fresh_queue st) := by
  constructor <;> simp [fresh_queue, IPC_MAX_QUEUE_SIZE]

theorem queue_wf_enqueue (q : Queue) (pool_used total_dropped : Nat) (msg : Message)
    (h : queue_wf q) : queue_wf (queue_enqueue q pool_used total_dropped msg).2.1 := by
  unfold queue_enqueue
  split
  · exact ⟨h.1, h.2⟩
  · split
    · exact ⟨h.1, h.2⟩
    · rename_i hfull _
      refine ⟨by simp [h.1], ?_⟩
      exact Nat.succ_le_of_lt (Nat.lt_of_not_le (fun hle => hfull (le_of_eq_of_le rfl hle)))

theorem remove_first_from_length (sender : Nat) :
    ∀ (l : List Message) (m : Message) (rest : List Message),
      remove_first_from sender l = some (m, rest) → rest.length + 1 = l.length := by
  intro l
  induction l with
  | nil => intro m rest h; simp [remove_first_from] at h
  | cons x xs ih =>
    intro m rest h
    unfold remove_first_from at h
    by_cases hx : x.sender_id = sender
    · simp [hx] at h
      simp [← h.2]
    · simp [hx] at h
      cases hrec : remove_first_from sender xs with
      | none => rw [hrec] at h; simp at h
      | some p =>
        rw [hrec] at h
        simp at h
        have := ih p.1 p.2 (by rw [hrec])
        simp [← h.2, ← this]

theorem queue_wf_dequeue (q : Queue) (pool_used : Nat) (filter : Option Nat)
    (h : queue_wf q) : queue_wf (queue_dequeue q pool_used filter).2.2.1 := by
  have h1 := h.1
  have hsub : q.count - 1 ≤ q.max_size := le_trans (Nat.sub_le _ _) h.2
  unfold queue_dequeue
  split
  · exact h
  · split
    · split
      · split
        · exact h
        · rename_i m rest hrm
          have hr := remove_first_from_length _ q.msgs m rest hrm
          exact ⟨by simp only [Queue.mk.injEq]; omega, hsub⟩
      · split
        · exact h
        · rename_i m rest hm
          exact ⟨by simp [h1, hm], hsub⟩
    · split
      · exact h
      · rename_i m rest hm
        exact ⟨by simp [h1, hm], hsub⟩

theorem find_idx_spec (p : Nat → Bool) (n i : Nat) (h : find_idx p n = some i) :
    p i = true := by
  unfold find_idx at h
  exact List.find?_some h

theorem wf_pq_upd {pq : Nat → Queue} {qi : Nat → Bool} (pid : Nat) (q' : Queue)
    (h : ∀ p, qi p = true → queue_wf (pq p)) (hq : queue_wf q') :
    ∀ p, qi p = true → queue_wf (upd pq pid q' p) := by
  intro p hp
  by_cases e : p = pid
  · rw [e, upd_same]; exact hq
  · rw [upd_other _ _ _ _ e]; exact h p hp

theorem wf_ports_upd {ps : Nat → Port} (i : Nat) (port' : Port)
    (h : ∀ j, (ps j).state ≠ IPC_PORT_CLOSED → queue_wf ((ps j).queue))
    (hp : port'.state ≠ IPC_PORT_CLOSED → queue_wf port'.queue) :
    ∀ j, (upd ps i port' j).state ≠ IPC_PORT_CLOSED → queue_wf ((upd ps i port' j).queue) := by
  intro j hj
  by_cases e : j = i
  · rw [e, upd_same] at hj ⊢; exact hp hj
  · rw [upd_other _ _ _ _ e] at hj ⊢; exact h j hj

theorem wf_channels_upd {cs : Nat → Channel} (i : Nat) (ch' : Channel)
    (h : ∀ j, (cs j).is_active = true →
      queue_wf ((cs j).queue_a_to_b) ∧ queue_wf ((cs j).queue_b_to_a))
    (hc : ch'.is_active = true → queue_wf ch'.queue_a_to_b ∧ queue_wf ch'.queue_b_to_a) :
    ∀ j, (upd cs i ch' j).is_active = true →
      queue_wf ((upd cs i ch' j).queue_a_to_b) ∧ queue_wf ((upd cs i ch' j).queue_b_to_a) := by
  intro j hj
  by_cases e : j = i
  · rw [e, upd_same] at hj ⊢; exact hc hj
  · rw [upd_other _ _ _ _ e] at hj ⊢; exact h j hj

theorem wf_ipc_process_init (s : IpcState) (pid : Nat) (h : live_queues_wf s) :
    live_queues_wf (ipc_process_init s pid).2 := by
  unfold ipc_process_init
  split
  · exact h
  split
  · exact h
  refine ⟨?_, h.2.1, h.2.2⟩
  intro p hp
  by_cases e : p = pid
  · rw [e]
    show queue_wf (upd s.process_queues pid (fresh_queue IPC_PORT_OPEN) pid)
    rw [upd_same]; exact queue_wf_fresh _
  · have hp' : s.queue_initialized p = true := by
      have : upd s.queue_initialized pid true p = s.queue_initialized p :=
        upd_other _ _ _ _ e
      exact this ▸ hp
    show queue_wf (upd s.process_queues pid (fresh_queue IPC_PORT_OPEN) p)
    rw [upd_other _ _ _ _ e]; exact h.1 p hp'

theorem wf_ipc_send (s : IpcState) (receiver_id : Nat) (msg : Message)
    (h : live_queues_wf s) : live_queues_wf (ipc_send s receiver_id msg).2 := by
  unfold ipc_send
  dsimp only
  split
  · exact h
  split
  · exact h
  split
  · exact h
  split
  · exact h
  rename_i h1 h2 h3 h4
  have hinit : s.queue_initialized receiver_id = true := not_not.mp h3
  have hq := queue_wf_enqueue (s.process_queues receiver_id) s.pool_used s.total_dropped
    { msg with sender_id := get_current_pid, receiver_id := receiver_id,
               message_id := s.next_message_id, timestamp := get_timestamp_ns }
    (h.1 receiver_id hinit)
  split
  · exact ⟨wf_pq_upd receiver_id _ h.1 hq, h.2.1, h.2.2⟩
  · exact ⟨wf_pq_upd receiver_id _ h.1 hq, h.2.1, h.2.2⟩

theorem wf_ipc_receive (s : IpcState) (filter : Option Nat) (h : live_queues_wf s) :
    live_queues_wf (ipc_receive s filter).2.2 := by
  unfold ipc_receive
  dsimp only
  split
  · exact h
  split
  · exact h
  rename_i h1 h2
  have hinit : s.queue_initialized get_current_pid = true := by
    rcases not_or.mp h2 with ⟨-, hb⟩
    exact not_not.mp hb
  have hq := queue_wf_dequeue (s.process_queues get_current_pid) s.pool_used filter
    (h.1 get_current_pid hinit)
  split
  · exact ⟨wf_pq_upd get_current_pid _ h.1 hq, h.2.1, h.2.2⟩
  · exact ⟨wf_pq_upd get_current_pid _ h.1 hq, h.2.1, h.2.2⟩

theorem wf_ipc_reply (s : IpcState) (original_msg reply : Message) (h : live_queues_wf s) :
    live_queues_wf (ipc_reply s original_msg reply).2 :=
  wf_ipc_send s _ _ h

theorem wf_ipc_call (s : IpcState) (receiver_id : Nat) (request : Message)
    (h : live_queues_wf s) : live_queues_wf (ipc_call s receiver_id request).2.2 := by
  unfold ipc_call
  dsimp only
  split
  · exact wf_ipc_send s receiver_id request h
  · exact wf_ipc_receive _ _ (wf_ipc_send s receiver_id request h)

theorem wf_ipc_port_create (s : IpcState) (name : String) (h : live_queues_wf s) :
    live_queues_wf (ipc_port_create s name).2.2 := by
  unfold ipc_port_create
  dsimp only
  split
  · exact h
  split
  · exact h
  split
  · exact h
  refine ⟨h.1, ?_, h.2.2⟩
  exact wf_ports_upd _ _ h.2.1 (fun _ => queue_wf_fresh _)

theorem wf_ipc_port_destroy (s : IpcState) (port_id : Nat) (h : live_queues_wf s) :
    live_queues_wf (ipc_port_destroy s port_id).2 := by
  unfold ipc_port_destroy
  dsimp only
  split
  · exact h
  split
  · exact h
  refine ⟨h.1, ?_, h.2.2⟩
  refine wf_ports_upd _ _ h.2.1 (fun hcl => absurd rfl hcl)

theorem wf_ipc_port_send (s : IpcState) (port_id : Nat) (msg : Message)
    (h : live_queues_wf s) : live_queues_wf (ipc_port_send s port_id msg).2 := by
  unfold ipc_port_send
  dsimp only
  split
  · exact h
  rename_i i hfind
  split
  · exact h
  rename_i hlisten
  have hopen : (s.ports i).state ≠ IPC_PORT_CLOSED := by
    intro hc
    exact hlisten (by rw [hc]; decide)
  have hq := queue_wf_enqueue ((s.ports i).queue) s.pool_used s.total_dropped
    { msg with sender_id := get_current_pid, receiver_id := (s.ports i).owner_id,
               message_id := s.next_message_id, timestamp := get_timestamp_ns }
    (h.2.1 i hopen)
  split
  · exact ⟨h.1, wf_ports_upd _ _ h.2.1 (fun _ => hq), h.2.2⟩
  · exact ⟨h.1, wf_ports_upd _ _ h.2.1 (fun _ => hq), h.2.2⟩

theorem wf_ipc_port_receive (s : IpcState) (port_id : Nat) (h : live_queues_wf s) :
    live_queues_wf (ipc_port_receive s port_id).2.2 := by
  unfold ipc_port_receive
  dsimp only
  split
  · exact h
  rename_i i hfind
  split
  · exact h
  have hopen : (s.ports i).state ≠ IPC_PORT_CLOSED := by
    have := find_idx_spec _ _ _ hfind
    simp only [decide_eq_true_eq, Bool.and_eq_true, decide_not, Bool.not_eq_true',
      decide_eq_false_iff_not] at this
    exact this.2
  have hq := queue_wf_dequeue ((s.ports i).queue) s.pool_used (some IPC_PID_ANY)
    (h.2.1 i hopen)
  split
  · exact ⟨h.1, wf_ports_upd _ _ h.2.1 (fun _ => hq), h.2.2⟩
  · exact ⟨h.1, wf_ports_upd _ _ h.2.1 (fun _ => hq), h.2.2⟩

theorem wf_ipc_share_create (s : IpcState) (size : Nat) (h : live_queues_wf s) :
    live_queues_wf (ipc_share_create s size).2.2 := by
  unfold ipc_share_create
  dsimp only
  split
  · exact h
  split
  · exact h
  split
  · exact h
  exact ⟨h.1, h.2.1, h.2.2⟩

theorem wf_ipc_share_destroy (s : IpcState) (region_id : Nat) (h : live_queues_wf s) :
    live_queues_wf (ipc_share_destroy s region_id).2 := by
  unfold ipc_share_destroy
  dsimp only
  split
  · exact h
  split
  · exact h
  exact ⟨h.1, h.2.1, h.2.2⟩

theorem wf_ipc_share_grant (s : IpcState) (region_id grantee_id permissions : Nat)
    (h : live_queues_wf s) :
    live_queues_wf (ipc_share_grant s region_id grantee_id permissions).2.2 := by
  unfold ipc_share_grant
  dsimp only
  split
  · exact h
  split
  · exact h
  split
  · exact ⟨h.1, h.2.1, h.2.2⟩
  · exact h
  · exact h

theorem wf_ipc_share_revoke (s : IpcState) (region_id grantee_id : Nat)
    (h : live_queues_wf s) : live_queues_wf (ipc_share_revoke s region_id grantee_id).2 := by
  unfold ipc_share_revoke
  dsimp only
  split
  · exact h
  split
  · exact h
  split
  · exact h
  exact ⟨h.1, h.2.1, h.2.2⟩

theorem wf_ipc_channel_create (s : IpcState) (endpoint_a endpoint_b : Nat)
    (h : live_queues_wf s) : live_queues_wf (ipc_channel_create s endpoint_a endpoint_b).2.2 := by
  unfold ipc_channel_create
  dsimp only
  split
  · exact h
  split
  · exact h
  split
  · exact h
  refine ⟨h.1, h.2.1, ?_⟩
  exact wf_channels_upd _ _ h.2.2 (fun _ => ⟨queue_wf_fresh _, queue_wf_fresh _⟩)

theorem wf_ipc_channel_destroy (s : IpcState) (channel_id : Nat) (h : live_queues_wf s) :
    live_queues_wf (ipc_channel_destroy s channel_id).2 := by
  unfold ipc_channel_destroy
  dsimp only
  split
  · exact h
  refine ⟨h.1, h.2.1, ?_⟩
  refine wf_channels_upd _ _ h.2.2 (fun hact => ?_)
  exact absurd hact (by simp)

theorem wf_ipc_channel_send (s : IpcState) (channel_id : Nat) (msg : Message)
    (h : live_queues_wf s) : live_queues_wf (ipc_channel_send s channel_id msg).2 := by
  unfold ipc_channel_send
  dsimp only
  split
  · exact h
  rename_i i hfind
  split
  · exact h
  have hact : (s.channels i).is_active = true := by
    have := find_idx_spec _ _ _ hfind
    simp only [decide_eq_true_eq, Bool.and_eq_true, decide_eq_true_eq] at this
    exact this.2
  have hboth := h.2.2 i hact
  have hq1 := queue_wf_enqueue ((s.channels i).queue_a_to_b) s.pool_used s.total_dropped
    { msg with sender_id := get_current_pid,
               receiver_id := if get_current_pid = (s.channels i).endpoint_a then
                 (s.channels i).endpoint_b else (s.channels i).endpoint_a,
               message_id := s.next_message_id, timestamp := get_timestamp_ns } hboth.1
  have hq2 := queue_wf_enqueue ((s.channels i).queue_b_to_a) s.pool_used s.total_dropped
    { msg with sender_id := get_current_pid,
               receiver_id := if get_current_pid = (s.channels i).endpoint_a then
                 (s.channels i).endpoint_b else (s.channels i).endpoint_a,
               message_id := s.next_message_id, timestamp := get_timestamp_ns } hboth.2
  by_cases hdir : get_current_pid = (s.channels i).endpoint_a
  · simp only [hdir, if_true]
    split
    · exact ⟨h.1, h.2.1, wf_channels_upd _ _ h.2.2 (fun _ => ⟨by simp [hdir] at hq1 ⊢; exact hq1, hboth.2⟩)⟩
    · exact ⟨h.1, h.2.1, wf_channels_upd _ _ h.2.2 (fun _ => ⟨by simp [hdir] at hq1 ⊢; exact hq1, hboth.2⟩)⟩
  · simp only [hdir, if_false]
    split
    · exact ⟨h.1, h.2.1, wf_channels_upd _ _ h.2.2 (fun _ => ⟨hboth.1, by simp [hdir] at hq2 ⊢; exact hq2⟩)⟩
    · exact ⟨h.1, h.2.1, wf_channels_upd _ _ h.2.2 (fun _ => ⟨hboth.1, by simp [hdir] at hq2 ⊢; exact hq2⟩)⟩

theorem wf_ipc_channel_receive (s : IpcState) (channel_id : Nat) (h : live_queues_wf s) :
    live_queues_wf (ipc_channel_receive s channel_id).2.2 := by
  unfold ipc_channel_receive
  dsimp only
  split
  · exact h
  rename_i i hfind
  split
  · exact h
  have hact : (s.channels i).is_active = true := by
    have := find_idx_spec _ _ _ hfind
    simp only [decide_eq_true_eq, Bool.and_eq_true, decide_eq_true_eq] at this
    exact this.2
  have hboth := h.2.2 i hact
  have hq1 := queue_wf_dequeue ((s.channels i).queue_b_to_a) s.pool_used (some IPC_PID_ANY) hboth.2
  have hq2 := queue_wf_dequeue ((s.channels i).queue_a_to_b) s.pool_used (some IPC_PID_ANY) hboth.1
  by_cases hdir : get_current_pid = (s.channels i).endpoint_a
  · simp only [hdir, if_true]
    split
    · exact ⟨h.1, h.2.1, wf_channels_upd _ _ h.2.2 (fun _ => ⟨hboth.1, by simp [hdir] at hq1 ⊢; exact hq1⟩)⟩
    · exact ⟨h.1, h.2.1, wf_channels_upd _ _ h.2.2 (fun _ => ⟨hboth.1, by simp [hdir] at hq1 ⊢; exact hq1⟩)⟩
  · simp only [hdir, if_false]
    split
    · exact ⟨h.1, h.2.1, wf_channels_upd _ _ h.2.2 (fun _ => ⟨by simp [hdir] at hq2 ⊢; exact hq2, hboth.2⟩)⟩
    · exact ⟨h.1, h.2.1, wf_channels_upd _ _ h.2.2 (fun _ => ⟨by simp [hdir] at hq2 ⊢; exact hq2, hboth.2⟩)⟩

theorem wf_cleanup_ports (pid : Nat) (s : IpcState) (h : live_queues_wf s) :
    live_queues_wf (cleanup_ports pid s) := by
  unfold cleanup_ports
  generalize List.range MAX_PORTS = l
  induction l generalizing s with
  | nil => exact h
  | cons x xs ih =>
    refine ih _ ?_
    dsimp only
    by_cases hc : (s.ports x).owner_id = pid ∧ (s.ports x).state ≠ IPC_PORT_CLOSED
    · rw [if_pos hc]
      exact wf_ipc_port_destroy _ _ h
    · rw [if_neg hc]
      exact h

theorem wf_cleanup_regions (pid : Nat) (s : IpcState) (h : live_queues_wf s) :
    live_queues_wf (cleanup_regions pid s) := by
  unfold cleanup_regions
  generalize List.range MAX_SHARED_REGIONS = l
  induction l generalizing s with
  | nil => exact h
  | cons x xs ih =>
    refine ih _ ?_
    dsimp only
    by_cases hc : (s.shared_regions x).owner_id = pid ∧ (s.shared_regions x).is_active
    · rw [if_pos hc]
      exact wf_ipc_share_destroy _ _ h
    · rw [if_neg hc]
      exact h

theorem wf_ipc_process_cleanup (s : IpcState) (pid : Nat) (h : live_queues_wf s) :
    live_queues_wf (ipc_process_cleanup s pid).2 := by
  unfold ipc_process_cleanup
  split
  · exact h
  split
  · exact h
  refine wf_cleanup_regions _ _ (wf_cleanup_ports _ _ ?_)
  refine ⟨?_, h.2.1, h.2.2⟩
  intro p hp
  have hp' : upd s.queue_initialized pid false p = true := hp
  by_cases e : p = pid
  · rw [e, upd_same] at hp'
    cases hp'
  · rw [upd_other _ _ _ _ e] at hp'
    have goal' : queue_wf (upd s.process_queues pid
        { s.process_queues pid with msgs := [], count := 0, state := IPC_PORT_CLOSED } p) := by
      rw [upd_other _ _ _ _ e]
      exact h.1 p hp'
    exact goal'

/-- One API call preserves well-formedness of all live queues. -/
theorem wf_ipc_step (s : IpcState) (op : IpcOp) (h : live_queues_wf s) :
    live_queues_wf (ipc_step s op) := by
  cases op with
  | opProcessInit pid => exact wf_ipc_process_init s pid h
  | opProcessCleanup pid => exact wf_ipc_process_cleanup s pid h
  | opSend receiver_id msg => exact wf_ipc_send s receiver_id msg h
  | opReceive filter => exact wf_ipc_receive s filter h
  | opReply original_msg reply => exact wf_ipc_reply s original_msg reply h
  | opCall receiver_id request => exact wf_ipc_call s receiver_id request h
  | opPortCreate name => exact wf_ipc_port_create s name h
  | opPortDestroy port_id => exact wf_ipc_port_destroy s port_id h
  | opPortSend port_id msg => exact wf_ipc_port_send s port_id msg h
  | opPortReceive port_id => exact wf_ipc_port_receive s port_id h
  | opShareCreate size => exact wf_ipc_share_create s size h
  | opShareDestroy region_id => exact wf_ipc_share_destroy s region_id h
  | opShareGrant region_id grantee_id permissions =>
    exact wf_ipc_share_grant s region_id grantee_id permissions h
  | opShareRevoke region_id grantee_id => exact wf_ipc_share_revoke s region_id grantee_id h
  | opChannelCreate endpoint_a endpoint_b => exact wf_ipc_channel_create s endpoint_a endpoint_b h
  | opChannelDestroy channel_id => exact wf_ipc_channel_destroy s channel_id h
  | opChannelSend channel_id msg => exact wf_ipc_channel_send s channel_id msg h
  | opChannelReceive channel_id => exact wf_ipc_channel_receive s channel_id h

/-- The boot state satisfies the invariant. -/
theorem wf_ipc_boot : live_queues_wf (ipc_init initial_state).2 := by
  have e : (ipc_init initial_state).2.process_queues =
      upd (fun _ => fresh_queue IPC_PORT_CLOSED) IPC_PID_KERNEL (fresh_queue IPC_PORT_OPEN) := rfl
  refine ⟨?_, ?_, ?_⟩
  · intro pid _
    rw [e]
    by_cases c : pid = IPC_PID_KERNEL
    · rw [c, upd_same]
      exact queue_wf_fresh _
    · rw [upd_other _ _ _ _ c]
      exact queue_wf_fresh _
  · intro i hi
    exact absurd rfl hi
  · intro i hi
    have h2 : false = true := hi
    cases h2

theorem wf_ipc_foldl (ops : List IpcOp) (s : IpcState) (h : live_queues_wf s) :
    live_queues_wf (ops.foldl ipc_step s) := by
  induction ops generalizing s with
  | nil => exact h
  | cons x xs ih => exact ih _ (wf_ipc_step s x h)

theorem wf_ipc_run (ops : List IpcOp) : live_queues_wf (ipc_run ops) :=
  wf_ipc_foldl ops _ wf_ipc_boot

/-! ### Concrete scenario states -/

/-- A 4-byte message ("ping") used by the concrete scenarios. -/
def ping_msg : Message :=
  { sender_id := 0
    receiver_id := 0
    message_type := 0
    message_id := 0
    reply_to := 0
    length := 4
    timestamp := 0
    deadline := 0
    data := [112, 105, 110, 103] }

/-- Boot state with the queue of pid 3 additionally initialized: the setting
of scenario S2 with a fresh receiver queue. -/
def s2_state : IpcState := (ipc_process_init (ipc_init initial_state).2 3).2

/-- State after `n` consecutive `ipc_send`s to pid 3, none received. -/
def s2_send_iter : Nat → IpcState
  | 0 => s2_state
  | n + 1 => (ipc_send (s2_send_iter n) 3 ping_msg).2

theorem queue_wf_props (q : Queue) (h : queue_wf q) :
    q.count ≤ q.max_size ∧ (q.msgs = [] ↔ q.count = 0) ∧ q.count = q.msgs.length := by
  refine ⟨h.2, ?_, h.1⟩
  rw [h.1]
  exact ⟨fun e => by simp [e], fun e => List.length_eq_zero.mp e⟩

/-- Reduction of `ipc_send` on a validated call whose receiver queue is full:
the message id is consumed, the queue only gains a drop, the pool is
untouched. -/
theorem ipc_send_full_eq (s : IpcState) (receiver_id : Nat) (msg : Message)
    (hup : s.ipc_up = true)
    (hrecv : receiver_id < MAX_PROCESSES)
    (hinit : s.queue_initialized receiver_id = true)
    (hlen : msg.length ≤ IPC_MAX_MESSAGE_SIZE)
    (hfull : (s.process_queues receiver_id).max_size ≤ (s.process_queues receiver_id).count) :
    ipc_send s receiver_id msg =
      (.BUFFER_FULL,
       { s with next_message_id := (s.next_message_id + 1) % 2 ^ 32,
                process_queues := upd s.process_queues receiver_id
                  { s.process_queues receiver_id with
                      dropped := (s.process_queues receiver_id).dropped + 1 },
                total_dropped := s.total_dropped + 1 }) := by
  unfold ipc_send
  rw [if_neg (by simp [hup]), if_neg (Nat.not_le.mpr hrecv), if_neg (by simp [hinit]),
      if_neg (Nat.not_lt.mpr hlen)]
  dsimp only
  unfold queue_enqueue
  rw [if_pos hfull]
  dsimp only
  rw [if_neg (by decide)]

/-- Claim C1: sending to a receiver whose queue already holds its maximum of
64 messages returns `BUFFER_FULL`, bumps the receiver's `dropped` counter by
exactly one, allocates nothing from the entry pool and leaves the count at
64; concretely, on a fresh receiver queue 64 sends succeed and the 65th
returns `BUFFER_FULL` with `dropped = 1` and `count = 64`. -/
theorem C1_send_to_full_queue :
    (∀ (s : IpcState) (receiver_id : Nat) (msg : Message),
      s.ipc_up = true →
      receiver_id < MAX_PROCESSES →
      s.queue_initialized receiver_id = true →
      msg.length ≤ IPC_MAX_MESSAGE_SIZE →
      (s.process_queues receiver_id).count = 64 →
      (s.process_queues receiver_id).max_size = 64 →
      (ipc_send s receiver_id msg).1 = .BUFFER_FULL ∧
      ((ipc_send s receiver_id msg).2.process_queues receiver_id).dropped
        = (s.process_queues receiver_id).dropped + 1 ∧
      (ipc_send s receiver_id msg).2.pool_used = s.pool_used ∧
      ((ipc_send s receiver_id msg).2.process_queues receiver_id).count = 64) ∧
    ((∀ k, k < 64 → (ipc_send (s2_send_iter k) 3 ping_msg).1 = .SUCCESS) ∧
     (ipc_send (s2_send_iter 64) 3 ping_msg).1 = .BUFFER_FULL ∧
     ((s2_send_iter 65).process_queues 3).dropped = 1 ∧
     ((s2_send_iter 65).process_queues 3).count = 64) := by
  constructor
  · intro s receiver_id msg hup hrecv hinit hlen hcount hmax
    have heq := ipc_send_full_eq s receiver_id msg hup hrecv hinit hlen
      (by rw [hcount, hmax])
    rw [heq]
    refine ⟨rfl, ?_, rfl, ?_⟩
    · show (upd s.process_queues receiver_id _ receiver_id).dropped = _
      rw [upd_same]
    · show (upd s.process_queues receiver_id _ receiver_id).count = 64
      rw [upd_same]
      exact hcount
  · exact ⟨by decide, by decide, by decide, by decide⟩

/-- Claim C1 witness: the general statement applied to the queue after the
64 successful sends of the concrete scenario. -/
theorem C1_send_to_full_queue_witness :
    (ipc_send (s2_send_iter 64) 3 ping_msg).1 = .BUFFER_FULL ∧
    ((ipc_send (s2_send_iter 64) 3 ping_msg).2.process_queues 3).dropped
      = ((s2_send_iter 64).process_queues 3).dropped + 1 ∧
    (ipc_send (s2_send_iter 64) 3 ping_msg).2.pool_used = (s2_send_iter 64).pool_used ∧
    ((ipc_send (s2_send_iter 64) 3 ping_msg).2.process_queues 3).count = 64 :=
  C1_send_to_full_queue.1 (s2_send_iter 64) 3 ping_msg (by decide) (by decide) (by decide)
    (by decide) (by decide) (by decide)

/-- The queue left behind by `ipc_port_create "console"`, one `ipc_port_send`
and `ipc_port_destroy`: its head chain is empty but its `count` is still 1. -/
def c2_state : IpcState :=
  (ipc_port_destroy (ipc_port_send (ipc_port_create s2_state "console").2.2 1 ping_msg).2 1).2

/-- Claim C2 counterexample: after destroying a port holding one message, the
port's queue has a null head yet `count = 1`, so "head is null iff count = 0"
and "walking next from head reaches tail in count steps" fail for this
queue. -/
theorem C2_counterexample_destroyed_port :
    (c2_state.ports 0).queue.msgs = [] ∧ (c2_state.ports 0).queue.count = 1 := by
  constructor
  · decide
  · decide

/-- Claim C2 (amended): after any sequence of IPC operations from boot, every
LIVE queue — the queue of a pid whose `queue_initialized` flag is set, of a
port that is not closed, or of an active channel — satisfies
`count ≤ max_size`, `head = NULL ↔ count = 0`, and walking `next` from head
reaches the tail in exactly `count` steps (the chain length equals `count`).
Queues left in destroyed (closed) port or channel slots may violate this
until the slot is reinitialized on reuse. -/
theorem C2_live_queue_invariants (ops : List IpcOp) :
    (∀ pid, (ipc_run ops).queue_initialized pid = true →
      ((ipc_run ops).process_queues pid).count ≤ ((ipc_run ops).process_queues pid).max_size ∧
      (((ipc_run ops).process_queues pid).msgs = [] ↔
        ((ipc_run ops).process_queues pid).count = 0) ∧
      ((ipc_run ops).process_queues pid).count = ((ipc_run ops).process_queues pid).msgs.length) ∧
    (∀ i, ((ipc_run ops).ports i).state ≠ IPC_PORT_CLOSED →
      ((ipc_run ops).ports i).queue.count ≤ ((ipc_run ops).ports i).queue.max_size ∧
      (((ipc_run ops).ports i).queue.msgs = [] ↔ ((ipc_run ops).ports i).queue.count = 0) ∧
      ((ipc_run ops).ports i).queue.count = ((ipc_run ops).ports i).queue.msgs.length) ∧
    (∀ i, ((ipc_run ops).channels i).is_active = true →
      (((ipc_run ops).channels i).queue_a_to_b.count
          ≤ ((ipc_run ops).channels i).queue_a_to_b.max_size ∧
        (((ipc_run ops).channels i).queue_a_to_b.msgs = [] ↔
          ((ipc_run ops).channels i).queue_a_to_b.count = 0) ∧
        ((ipc_run ops).channels i).queue_a_to_b.count
          = ((ipc_run ops).channels i).queue_a_to_b.msgs.length) ∧
      (((ipc_run ops).channels i).queue_b_to_a.count
          ≤ ((ipc_run ops).channels i).queue_b_to_a.max_size ∧
        (((ipc_run ops).channels i).queue_b_to_a.msgs = [] ↔
          ((ipc_run ops).channels i).queue_b_to_a.count = 0) ∧
        ((ipc_run ops).channels i).queue_b_to_a.count
          = ((ipc_run ops).channels i).queue_b_to_a.msgs.length)) := by
  have h := wf_ipc_run ops
  refine ⟨fun pid hp => queue_wf_props _ (h.1 pid hp),
          fun i hi => queue_wf_props _ (h.2.1 i hi),
          fun i hi => ⟨queue_wf_props _ (h.2.2 i hi).1, queue_wf_props _ (h.2.2 i hi).2⟩⟩

/-- The C9 scenario: create a region (id 1, slot 0, owner permissions R|W),
grant to pid 5 (slot 0) and pid 6 (slot 1), then revoke pid 5's grant so
grant slot 0 is free while pid 6's grant stays in slot 1. -/
def c9_state : IpcState :=
  (ipc_share_revoke
    (ipc_share_grant (ipc_share_grant (ipc_share_create s2_state 4096).2.2 1 5 7).2.2
      1 6 7).2.2 1 5).2

/-- Claim C9: evaluation at the failing input.  A second grant to pid 6 —
which already holds an active grant in slot 1 — returns `SUCCESS` instead of
`ALREADY_EXISTS` because the scan stops at the free slot 0 before reaching
slot 1; the region ends with two active grants for pid 6 and `ref_count`
bumped to 3.  The masking conjunct shows the part of the claim the code does
satisfy: a fresh grant of R|W|X against an R|W region records exactly R|W. -/
theorem C9_duplicate_grant_missed :
    (ipc_share_grant c9_state 1 6 7).1 = .SUCCESS ∧
    ((ipc_share_grant c9_state 1 6 7).2.2.region_grants 0 0).grantee_id = 6 ∧
    ((ipc_share_grant c9_state 1 6 7).2.2.region_grants 0 0).is_active = true ∧
    ((ipc_share_grant c9_state 1 6 7).2.2.region_grants 0 1).grantee_id = 6 ∧
    ((ipc_share_grant c9_state 1 6 7).2.2.region_grants 0 1).is_active = true ∧
    ((ipc_share_grant c9_state 1 6 7).2.2.shared_regions 0).ref_count = 3 ∧
    ((ipc_share_grant (ipc_share_create s2_state 4096).2.2 1 9 7).2.1.map
      RegionGrant.permissions) = some 3 := by
  refine ⟨by decide, by decide, by decide, by decide, by decide, by decide, by decide⟩

/-- Claim C10: a validated `ipc_send` always consumes a message id — the
global counter advances by one (mod 2³²) no matter whether the enqueue
succeeds; a successful enqueue appends a message carrying exactly the old
counter value (hence ids of delivered messages strictly increase modulo
wrap, with gaps where sends failed); a send failing with `BUFFER_FULL` or
`OUT_OF_MEMORY` still bumps the receiver's drop counter while the queue
contents stay unchanged. -/
theorem C10_failed_send_consumes_id (s : IpcState) (receiver_id : Nat) (msg : Message)
    (hup : s.ipc_up = true)
    (hrecv : receiver_id < MAX_PROCESSES)
    (hinit : s.queue_initialized receiver_id = true)
    (hlen : msg.length ≤ IPC_MAX_MESSAGE_SIZE) :
    (ipc_send s receiver_id msg).2.next_message_id = (s.next_message_id + 1) % 2 ^ 32 ∧
    ((ipc_send s receiver_id msg).1 = .SUCCESS →
      ((ipc_send s receiver_id msg).2.process_queues receiver_id).msgs
        = (s.process_queues receiver_id).msgs ++
          [{ msg with sender_id := get_current_pid, receiver_id := receiver_id,
                      message_id := s.next_message_id, timestamp := get_timestamp_ns }]) ∧
    ((ipc_send s receiver_id msg).1 = .BUFFER_FULL ∨
     (ipc_send s receiver_id msg).1 = .OUT_OF_MEMORY →
      ((ipc_send s receiver_id msg).2.process_queues receiver_id).dropped
        = (s.process_queues receiver_id).dropped + 1 ∧
      ((ipc_send s receiver_id msg).2.process_queues receiver_id).msgs
        = (s.process_queues receiver_id).msgs ∧
      ((ipc_send s receiver_id msg).2.process_queues receiver_id).count
        = (s.process_queues receiver_id).count) := by
  unfold ipc_send
  rw [if_neg (by simp [hup]), if_neg (Nat.not_le.mpr hrecv), if_neg (by simp [hinit]),
      if_neg (Nat.not_lt.mpr hlen)]
  dsimp only
  unfold queue_enqueue
  by_cases hfull : (s.process_queues receiver_id).count ≥ (s.process_queues receiver_id).max_size
  · rw [if_pos hfull]
    dsimp only
    rw [if_neg (by decide)]
    refine ⟨rfl, fun hc => IpcResult.noConfusion hc, fun _ => ⟨?_, ?_, ?_⟩⟩
    · show (upd s.process_queues receiver_id _ receiver_id).dropped = _
      rw [upd_same]
    · show (upd s.process_queues receiver_id _ receiver_id).msgs = _
      rw [upd_same]
    · show (upd s.process_queues receiver_id _ receiver_id).count = _
      rw [upd_same]
  · rw [if_neg hfull]
    by_cases hpool : ENTRY_POOL_SIZE ≤ s.pool_used
    · rw [if_pos hpool]
      dsimp only
      rw [if_neg (by decide)]
      refine ⟨rfl, fun hc => IpcResult.noConfusion hc, fun _ => ⟨?_, ?_, ?_⟩⟩
      · show (upd s.process_queues receiver_id _ receiver_id).dropped = _
        rw [upd_same]
      · show (upd s.process_queues receiver_id _ receiver_id).msgs = _
        rw [upd_same]
      · show (upd s.process_queues receiver_id _ receiver_id).count = _
        rw [upd_same]
    · rw [if_neg hpool]
      dsimp only
      rw [if_pos rfl]
      refine ⟨rfl, fun _ => ?_,
        fun hc => hc.elim (fun h2 => IpcResult.noConfusion h2) (fun h2 => IpcResult.noConfusion h2)⟩
      show (upd s.process_queues receiver_id _ receiver_id).msgs = _
      rw [upd_same]

/-- Claim C10 witness: applied to the full-queue state after 64 sends, where
the 65th send fails with `BUFFER_FULL` yet consumes an id. -/
theorem C10_failed_send_consumes_id_witness :
    (ipc_send (s2_send_iter 64) 3 ping_msg).2.next_message_id
      = ((s2_send_iter 64).next_message_id + 1) % 2 ^ 32 :=
  (C10_failed_send_consumes_id (s2_send_iter 64) 3 ping_msg (by decide) (by decide)
    (by decide) (by decide)).1

end IPC

namespace Process

/-! ### Ready queues from `process.c` -/

def PRIORITY_IDLE : Nat := 0
def PRIORITY_KERNEL : Nat := 5
def KERNEL_PROCESS_ID : Nat := 0

/-- `add_to_ready_queue`: the PCB is linked in at the HEAD of its priority's
doubly linked list (`process->next = ready_queue[prio]; ready_queue[prio] =
process`).  `ready_queue p` is the chain from the head, holding pids. -/
def add_to_ready_queue (rq : Nat → List Nat) (priority pid : Nat) : Nat → List Nat :=
  if PRIORITY_KERNEL < priority then rq
  else upd rq priority (pid :: rq priority)

/-- The scan loop of `process_get_next_ready`, from priority `n - 1` down to
0; returns the idle pid (`KERNEL_PROCESS_ID + 1`) when every list is empty. -/
def next_ready_scan (rq : Nat → List Nat) : Nat → Nat
  | 0 => KERNEL_PROCESS_ID + 1
  | p + 1 =>
    match rq p with
    | [] => next_ready_scan rq p
    | pid :: _ => pid

/-- `process_get_next_ready`: head of the first non-empty list scanning
`PRIORITY_KERNEL` down to `PRIORITY_IDLE`; `&process_table[1]` (the idle
PCB, pid 1) if none. -/
def process_get_next_ready (rq : Nat → List Nat) : Nat :=
  next_ready_scan rq (PRIORITY_KERNEL + 1)

theorem next_ready_scan_empty (rq : Nat → List Nat) :
    ∀ n, (∀ p, p < n → rq p = []) → next_ready_scan rq n = 1 := by
  intro n
  induction n with
  | zero => intro _; rfl
  | succ m ih =>
    intro h
    unfold next_ready_scan
    rw [h m (Nat.lt_succ_self m)]
    exact ih (fun p hp => h p (Nat.lt_succ_of_lt hp))

theorem next_ready_scan_head (rq : Nat → List Nat) :
    ∀ (n p pid : Nat) (rest : List Nat), p < n → rq p = pid :: rest →
      (∀ q, p < q → q < n → rq q = []) → next_ready_scan rq n = pid := by
  intro n
  induction n with
  | zero => intro p pid rest hp; cases hp
  | succ m ih =>
    intro p pid rest hp hl hempty
    unfold next_ready_scan
    by_cases e : m = p
    · rw [e, hl]
    · have hm : rq m = [] :=
        hempty m (Nat.lt_of_le_of_ne (Nat.le_of_lt_succ hp) (fun h => e h.symm))
          (Nat.lt_succ_self m)
      rw [hm]
      exact ih p pid rest (Nat.lt_of_le_of_ne (Nat.le_of_lt_succ hp) (fun h => e h.symm)) hl
        (fun q h1 h2 => hempty q h1 (Nat.lt_succ_of_lt h2))

/-- The ready list of priority 2 after pid 2 enters first and pid 3 enters
second. -/
def c3_rq : Nat → List Nat :=
  add_to_ready_queue (add_to_ready_queue (fun _ => []) 2 2) 2 3

/-- Claim C3 counterexample: with pids 2 and 3 both ready at equal priority
2, pid 2 having entered the ready list first, `process_get_next_ready`
returns pid 3 — the process that entered LATER — so the per-priority lists
are not FIFO as claimed. -/
theorem C3_counterexample_not_fifo :
    process_get_next_ready c3_rq = 3 ∧ (3 : Nat) ≠ 2 := by
  constructor
  · decide
  · decide

/-- Claim C3 (amended): the per-priority ready lists are LIFO — of two
equal-priority ready processes, `process_get_next_ready` returns the one
that entered the ready list more recently, because `add_to_ready_queue`
pushes at the head and `process_get_next_ready` returns the head of the
first non-empty list scanning priorities from kernel (5) down to idle (0),
falling back to the idle PCB (pid 1) when every list is empty. -/
theorem C3_ready_lists_lifo :
    (∀ (rq : Nat → List Nat) (p a b : Nat), p ≤ PRIORITY_KERNEL →
      (∀ q, p < q → q ≤ PRIORITY_KERNEL → rq q = []) →
      process_get_next_ready (add_to_ready_queue (add_to_ready_queue rq p a) p b) = b) ∧
    (∀ (rq : Nat → List Nat) (p pid : Nat) (rest : List Nat), p ≤ PRIORITY_KERNEL →
      rq p = pid :: rest → (∀ q, p < q → q ≤ PRIORITY_KERNEL → rq q = []) →
      process_get_next_ready rq = pid) ∧
    (∀ rq : Nat → List Nat, (∀ p, p ≤ PRIORITY_KERNEL → rq p = []) →
      process_get_next_ready rq = 1) := by
  have hscan : ∀ (rq : Nat → List Nat) (p pid : Nat) (rest : List Nat), p ≤ PRIORITY_KERNEL →
      rq p = pid :: rest → (∀ q, p < q → q ≤ PRIORITY_KERNEL → rq q = []) →
      process_get_next_ready rq = pid := by
    intro rq p pid rest hp hl hempty
    exact next_ready_scan_head rq (PRIORITY_KERNEL + 1) p pid rest (Nat.lt_succ_of_le hp) hl
      (fun q h1 h2 => hempty q h1 (Nat.le_of_lt_succ h2))
  refine ⟨?_, hscan, ?_⟩
  · intro rq p a b hp hempty
    have hne : ¬ PRIORITY_KERNEL < p := Nat.not_lt.mpr hp
    have hl : add_to_ready_queue (add_to_ready_queue rq p a) p b p
        = b :: a :: rq p := by
      unfold add_to_ready_queue
      rw [if_neg hne, if_neg hne, upd_same, upd_same]
    refine hscan _ p b (a :: rq p) hp hl ?_
    intro q h1 h2
    have hq : q ≠ p := fun h => Nat.lt_irrefl p (h ▸ h1)
    unfold add_to_ready_queue
    rw [if_neg hne, if_neg hne, upd_other _ _ _ _ hq, upd_other _ _ _ _ hq]
    exact hempty q h1 h2
  · intro rq hempty
    exact next_ready_scan_empty rq (PRIORITY_KERNEL + 1)
      (fun p hp => hempty p (Nat.le_of_lt_succ hp))

/-- Claim C3 witness: the amended LIFO statement applied to the concrete
two-process list, and the idle fallback on empty lists. -/
theorem C3_ready_lists_lifo_witness :
    process_get_next_ready (add_to_ready_queue (add_to_ready_queue (fun _ => []) 2 7) 2 9) = 9 ∧
    process_get_next_ready (fun _ => []) = 1 :=
  ⟨C3_ready_lists_lifo.1 (fun _ => []) 2 7 9 (by decide) (fun _ _ _ => rfl),
   C3_ready_lists_lifo.2.2 (fun _ => []) (fun _ _ => rfl)⟩

end Process

namespace Resonant

/-! ### The resonant scheduler from `resonant_scheduler.c`.

C `double` values are embedded as exact rationals; every arithmetic step
settled by the claims below (ratios of small literals, comparisons against
1) is exact in IEEE double as well.  The phase initialization uses the
module PRNG, modelled bit-exactly on `Nat`. -/

def MAX_RESONANT_PROCESSES : Nat := 256
def PHI_VALUE : ℚ := 1618033988749895 / 10 ^ 15
def LAMBDA_DEFAULT : ℚ := 1 / 10
def LAMBDA_MIN : ℚ := 1 / 100
def LAMBDA_MAX : ℚ := 1 / 2
def ETA_OPTIMAL : ℚ := 618 / 1000
def COHERENCE_MIN : ℚ := 3 / 10
def COHERENCE_TARGET : ℚ := 7 / 10
def COHERENCE_HIGH : ℚ := 85 / 100
def CHIRAL_STABLE_MAX : ℚ := 1
def CHIRAL_TRANS_MAX : ℚ := 3 / 2
def PHI_CONSCIOUSNESS_THRESHOLD : ℚ := 3
def RPCB_MAGIC : Nat := 0x52534E54
def RESONANT_SYNC_INTERVAL : Nat := 1000000

/-- `resonant_class_t` (named `RCls` to keep Lean identifiers plain). -/
inductive RCls where
  | CLASSICAL
  | QUANTUM
  | HYBRID
  | CONSCIOUSNESS
  | EMERGENCE
deriving DecidableEq, Repr

/-- `handedness_t`. -/
inductive Handedness where
  | NEUTRAL
  | LEFT
  | RIGHT
deriving DecidableEq, Repr

/-- `resonant_state_t`. -/
inductive RState where
  | DORMANT
  | COHERENT
  | DECOHERENT
  | EMERGENT
  | CONSCIOUS
deriving DecidableEq, Repr

/-- `resonant_result_t`. -/
inductive RResult where
  | SUCCESS
  | INVALID_PID
  | NOT_INITIALIZED
  | DECOHERENCE
  | COUPLING_FAILED
  | UNSTABLE_CHIRAL
  | CONSCIOUSNESS_UNVERIFIED
  | EMERGENCE_BLOCKED
  | NO_RESOURCES
deriving DecidableEq, Repr

/-- `oscillator_state_t`. -/
structure OscState where
  phase : ℚ
  frequency : ℚ
  amplitude : ℚ
  coherence : ℚ
deriving DecidableEq, Repr

/-- `chiral_state_t`. -/
structure ChiralState where
  eta : ℚ
  gamma : ℚ
  asymmetry : ℚ
  topological_charge : ℚ
  handedness : Handedness
  is_stable : Bool
deriving DecidableEq, Repr

/-- `emergence_state_t`. -/
structure EmergState where
  norm : ℚ
  entropy : ℚ
  pattern_count : Nat
  integration_level : ℚ
deriving DecidableEq, Repr

/-- `resonant_pcb_t`.  `coupled_pids` carries the first `coupling_count`
array entries (entries past the count are never read by the source). -/
structure RPCB where
  pid : Nat
  rcls : RCls
  rstate : RState
  oscillator : OscState
  chiral : ChiralState
  emergence : EmergState
  resonant_priority : ℚ
  coherence_deadline : ℚ
  last_coupling : Nat
  phi_value : ℚ
  consciousness_verified : Bool
  verification_time : Nat
  qubits_resonant : Nat
  coherence_window : Nat
  coupled_pids : List Nat
  coherent_time : Nat
  emergent_events : Nat
  magic : Nat
deriving DecidableEq, Repr

/-- `queen_state_t`. -/
structure QueenState where
  order_parameter_r : ℚ
  order_parameter_psi : ℚ
  lambda : ℚ
  eta : ℚ
  system_coherence : ℚ
  system_entropy : ℚ
  emergence_norm : ℚ
  classical_count : Nat
  quantum_count : Nat
  hybrid_count : Nat
  conscious_count : Nat
  emergent_count : Nat
  total_phi : ℚ
  average_phi : ℚ
  network_conscious : Bool
  globally_stable : Bool
  max_asymmetry : ℚ
  last_sync : Nat
  sync_count : Nat
deriving DecidableEq, Repr

/-- `resonant_config_t`. -/
structure Config where
  initial_lambda : ℚ
  lambda_adaptation : ℚ
  initial_eta : ℚ
  gamma : ℚ
  coherence_target : ℚ
  emergence_threshold : ℚ
  phi_threshold : ℚ
  sync_interval_ns : Nat
  measurement_interval_ns : Nat
  max_coupled : Nat
  max_lambda : ℚ
  max_asymmetry : ℚ
deriving DecidableEq, Repr

/-- `default_config`. -/
def default_config : Config :=
  { initial_lambda := LAMBDA_DEFAULT
    lambda_adaptation := 1 / 100
    initial_eta := ETA_OPTIMAL
    gamma := 1
    coherence_target := COHERENCE_TARGET
    emergence_threshold := 1 / 10
    phi_threshold := PHI_CONSCIOUSNESS_THRESHOLD
    sync_interval_ns := RESONANT_SYNC_INTERVAL
    measurement_interval_ns := 100000000
    max_coupled := 8
    max_lambda := LAMBDA_MAX
    max_asymmetry := CHIRAL_TRANS_MAX }

/-- The zeroed RPCB produced by `memset(rpcb, 0, ...)`. -/
def zero_rpcb : RPCB :=
  { pid := 0
    rcls := .CLASSICAL
    rstate := .DORMANT
    oscillator := { phase := 0, frequency := 0, amplitude := 0, coherence := 0 }
    chiral := { eta := 0, gamma := 0, asymmetry := 0, topological_charge := 0,
                handedness := .NEUTRAL, is_stable := false }
    emergence := { norm := 0, entropy := 0, pattern_count := 0, integration_level := 0 }
    resonant_priority := 0
    coherence_deadline := 0
    last_coupling := 0
    phi_value := 0
    consciousness_verified := false
    verification_time := 0
    qubits_resonant := 0
    coherence_window := 0
    coupled_pids := []
    coherent_time := 0
    emergent_events := 0
    magic := 0 }

/-- The whole static state of `resonant_scheduler.c`. -/
structure SchedState where
  rpcb_table : Nat → RPCB
  queen : QueenState
  config : Config
  sched_up : Bool
  rng_state : Nat

/-- One step of the module PRNG: `rng_state = rng_state * 1103515245 + 12345`
on `uint32_t`. -/
def rng_next (r : Nat) : Nat := (r * 1103515245 + 12345) % 2 ^ 32

/-- The value `random_double` computes from the advanced state:
`(rng_state & 0x7FFFFFFF) / 0x7FFFFFFF`, exact in the rational embedding. -/
def random_val (r : Nat) : ℚ := ((r % 2 ^ 31 : Nat) : ℚ) / ((0x7FFFFFFF : Nat) : ℚ)

/-- `PI` as written in the source text. -/
def PI_LIT : ℚ := 314159265358979323846 / 10 ^ 20

def TWO_PI : ℚ := 2 * PI_LIT

/-- `RPCB_IS_VALID` on a table slot. -/
def rpcb_valid (s : SchedState) (pid : Nat) : Bool :=
  pid < MAX_RESONANT_PROCESSES ∧ (s.rpcb_table pid).magic = RPCB_MAGIC

/-- Class-dependent natural frequency set by `init_oscillator`. -/
def class_frequency : RCls → ℚ
  | .CLASSICAL => 1
  | .QUANTUM => 10
  | .HYBRID => 5
  | .CONSCIOUSNESS => 40
  | .EMERGENCE => PHI_VALUE

/-- `init_oscillator`, given the value drawn from the PRNG. -/
def init_oscillator (rand : ℚ) (rcls : RCls) : OscState :=
  { phase := rand * TWO_PI
    frequency := class_frequency rcls
    amplitude := 1
    coherence := 1 / 2 }

/-- `init_chiral`: note the signed ratio `eta / gamma` — the source applies
no absolute value before the `< CHIRAL_STABLE_MAX` comparison. -/
def init_chiral (cfg : Config) (hand : Handedness) : ChiralState :=
  let eta := cfg.initial_eta
  let gamma := cfg.gamma
  let asymmetry := eta / gamma
  { eta := eta
    gamma := gamma
    asymmetry := asymmetry
    topological_charge := 0
    handedness := hand
    is_stable := decide (asymmetry < CHIRAL_STABLE_MAX) }

/-- `init_emergence`. -/
def init_emergence : EmergState :=
  { norm := 0, entropy := 0, pattern_count := 0, integration_level := 0 }

/-- `resonant_scheduler_init` run on the zeroed statics with the given
configuration (`none` = defaults). -/
def resonant_scheduler_init (cfg : Option Config) : SchedState :=
  let c := cfg.getD default_config
  { rpcb_table := fun _ => zero_rpcb
    queen := { order_parameter_r := 0
               order_parameter_psi := 0
               lambda := c.initial_lambda
               eta := c.initial_eta
               system_coherence := 1 / 2
               system_entropy := 0
               emergence_norm := 0
               classical_count := 0
               quantum_count := 0
               hybrid_count := 0
               conscious_count := 0
               emergent_count := 0
               total_phi := 0
               average_phi := 0
               network_conscious := false
               globally_stable := true
               max_asymmetry := 0
               last_sync := 0
               sync_count := 0 }
    config := c
    sched_up := true
    rng_state := 12345 }

/-- The per-class Queen counter. -/
def class_count (q : QueenState) : RCls → Nat
  | .CLASSICAL => q.classical_count
  | .QUANTUM => q.quantum_count
  | .HYBRID => q.hybrid_count
  | .CONSCIOUSNESS => q.conscious_count
  | .EMERGENCE => q.emergent_count

/-- Increment the per-class Queen counter (the `switch` in
`resonant_register`). -/
def bump_class_count (q : QueenState) : RCls → QueenState
  | .CLASSICAL => { q with classical_count := q.classical_count + 1 }
  | .QUANTUM => { q with quantum_count := q.quantum_count + 1 }
  | .HYBRID => { q with hybrid_count := q.hybrid_count + 1 }
  | .CONSCIOUSNESS => { q with conscious_count := q.conscious_count + 1 }
  | .EMERGENCE => { q with emergent_count := q.emergent_count + 1 }

/-- Decrement the per-class Queen counter with the `> 0` guard (the `switch`
in `resonant_unregister`). -/
def drop_class_count (q : QueenState) : RCls → QueenState
  | .CLASSICAL => { q with classical_count := q.classical_count - 1 }
  | .QUANTUM => { q with quantum_count := q.quantum_count - 1 }
  | .HYBRID => { q with hybrid_count := q.hybrid_count - 1 }
  | .CONSCIOUSNESS => { q with conscious_count := q.conscious_count - 1 }
  | .EMERGENCE => { q with emergent_count := q.emergent_count - 1 }

/-- `resonant_register`.  `proc_valid` stands for `process_is_valid` from
`process.c`.  The source has NO check whether the pid is already registered:
it unconditionally memsets the RPCB and bumps the class counter. -/
def resonant_register (proc_valid : Nat → Bool) (s : SchedState) (pid : Nat)
    (rcls : RCls) (hand : Handedness) : RResult × SchedState :=
  if ¬ s.sched_up then (.NOT_INITIALIZED, s)
  else if MAX_RESONANT_PROCESSES ≤ pid then (.INVALID_PID, s)
  else if ¬ proc_valid pid then (.INVALID_PID, s)
  else
    let rng' := rng_next s.rng_state
    let rpcb : RPCB :=
      { zero_rpcb with
          pid := pid
          rcls := rcls
          rstate := .COHERENT
          oscillator := init_oscillator (random_val rng') rcls
          chiral := init_chiral s.config hand
          emergence := init_emergence
          resonant_priority := 1 / 2
          coherence_deadline := 1000000000
          magic := RPCB_MAGIC }
    (.SUCCESS,
     { s with rpcb_table := upd s.rpcb_table pid rpcb,
              queen := bump_class_count s.queen rcls,
              rng_state := rng' })

/-- Remove the first occurrence of `x` (the shift-left loop of
`resonant_decouple`). -/
def remove_pid (x : Nat) : List Nat → List Nat
  | [] => []
  | y :: rest => if y = x then rest else y :: remove_pid x rest

/-- `resonant_decouple`.  The two removals are sequential on the table, so a
call with `pid1 = pid2` removes two occurrences from the same list exactly
as the aliased pointers do in C. -/
def resonant_decouple (s : SchedState) (pid1 pid2 : Nat) : RResult × SchedState :=
  if ¬ (rpcb_valid s pid1 ∧ rpcb_valid s pid2) then (.INVALID_PID, s)
  else
    let r1 := s.rpcb_table pid1
    let r1x := { r1 with coupled_pids := remove_pid pid2 r1.coupled_pids }
    let s1 := { s with rpcb_table := upd s.rpcb_table pid1 r1x }
    let r2 := s1.rpcb_table pid2
    let r2x := { r2 with coupled_pids := remove_pid pid1 r2.coupled_pids }
    (.SUCCESS, { s1 with rpcb_table := upd s1.rpcb_table pid2 r2x })

/-- `resonant_couple`.  The appends are sequential on the table: coupling a
pid to itself appends it to its own list twice (`coupled_pids[count++] =
pid2` then `coupled_pids[count++] = pid1` through the same pointer). -/
def resonant_couple (s : SchedState) (pid1 pid2 : Nat) : RResult × SchedState :=
  if ¬ (rpcb_valid s pid1 ∧ rpcb_valid s pid2) then (.INVALID_PID, s)
  else if s.config.max_coupled ≤ (s.rpcb_table pid1).coupled_pids.length ∨
       s.config.max_coupled ≤ (s.rpcb_table pid2).coupled_pids.length then
    (.COUPLING_FAILED, s)
  else if pid2 ∈ (s.rpcb_table pid1).coupled_pids then (.SUCCESS, s)
  else
    let r1 := s.rpcb_table pid1
    let r1x := { r1 with coupled_pids := r1.coupled_pids ++ [pid2] }
    let s1 := { s with rpcb_table := upd s.rpcb_table pid1 r1x }
    let r2 := s1.rpcb_table pid2
    let r2x := { r2 with coupled_pids := r2.coupled_pids ++ [pid1] }
    (.SUCCESS, { s1 with rpcb_table := upd s1.rpcb_table pid2 r2x })

/-- The decouple loop of `resonant_unregister`: `for (i = 0; i <
rpcb->coupling_count; i++) resonant_decouple(pid, rpcb->coupled_pids[i]);`.
Both the count and the entries are re-read from the live RPCB each
iteration while `resonant_decouple` shifts the list left, so every other
peer is skipped.  The fuel starts at the entry count, which bounds the
iterations since `i` grows and the count never grows. -/
def unregister_decouple_loop (pid : Nat) : Nat → Nat → SchedState → SchedState
  | _, 0, s => s
  | i, fuel + 1, s =>
    let l := (s.rpcb_table pid).coupled_pids
    if i < l.length then
      unregister_decouple_loop pid (i + 1) fuel (resonant_decouple s pid (l.getD i 0)).2
    else s

/-- `resonant_unregister`. -/
def resonant_unregister (s : SchedState) (pid : Nat) : RResult × SchedState :=
  if ¬ s.sched_up then (.NOT_INITIALIZED, s)
  else if ¬ rpcb_valid s pid then (.INVALID_PID, s)
  else
    let s1 := unregister_decouple_loop pid 0 (s.rpcb_table pid).coupled_pids.length s
    let r := s1.rpcb_table pid
    (.SUCCESS, { s1 with rpcb_table := upd s1.rpcb_table pid { r with magic := 0 },
                         queen := drop_class_count s1.queen r.rcls })

/-- `resonant_set_chiral`: again the signed ratio, with the untouched `eta`
fallback when `gamma ≤ 0`. -/
def resonant_set_chiral (s : SchedState) (pid : Nat) (eta gamma : ℚ) :
    RResult × SchedState :=
  if ¬ rpcb_valid s pid then (.INVALID_PID, s)
  else
    let r := s.rpcb_table pid
    let asymmetry := if 0 < gamma then eta / gamma else eta
    let c := { r.chiral with
                 eta := eta
                 gamma := gamma
                 asymmetry := asymmetry
                 is_stable := decide (asymmetry < CHIRAL_STABLE_MAX) }
    (.SUCCESS, { s with rpcb_table := upd s.rpcb_table pid { r with chiral := c } })

/-- `resonant_optimize_chiral`. -/
def resonant_optimize_chiral (s : SchedState) (pid : Nat) : RResult × SchedState :=
  if ¬ rpcb_valid s pid then (.INVALID_PID, s)
  else
    let r := s.rpcb_table pid
    let eta' := (9 / 10 : ℚ) * r.chiral.eta + (1 / 10 : ℚ) * ETA_OPTIMAL
    let gamma' := if CHIRAL_STABLE_MAX ≤ r.chiral.asymmetry then
        eta' / (CHIRAL_STABLE_MAX * (9 / 10 : ℚ))
      else r.chiral.gamma
    let asymmetry' := eta' / gamma'
    let c := { r.chiral with
                 eta := eta'
                 gamma := gamma'
                 asymmetry := asymmetry'
                 is_stable := decide (asymmetry' < CHIRAL_STABLE_MAX) }
    (.SUCCESS, { s with rpcb_table := upd s.rpcb_table pid { r with chiral := c } })

/-! ### Concrete scheduler scenarios -/

/-- `process_is_valid` environment for the scenarios: pids 2, 3 and 4 exist. -/
def c_pv : Nat → Bool := fun pid => pid = 2 || pid = 3 || pid = 4

/-- Scheduler booted with the default configuration. -/
def sched0 : SchedState := resonant_scheduler_init none

/-- Scheduler with pid 2 registered classical/neutral. -/
def sched1 : SchedState := (resonant_register c_pv sched0 2 .CLASSICAL .NEUTRAL).2

/-- Scheduler with pids 2, 3 and 4 registered. -/
def sched3 : SchedState :=
  (resonant_register c_pv (resonant_register c_pv sched1 3 .CLASSICAL .NEUTRAL).2
    4 .CLASSICAL .NEUTRAL).2

/-- `sched3` after `couple(2,3)` and `couple(2,4)`: pid 2 lists `[3,4]`, and
pids 3 and 4 each list `[2]`. -/
def sched_coupled : SchedState :=
  (resonant_couple (resonant_couple sched3 2 3).2 2 4).2

/-- Claim C4 counterexample: pid 2 is already registered in `sched1`, yet a
second `resonant_register(2, classical, neutral)` returns `SUCCESS` — not an
error — and increments the Queen classical counter again, to 2. -/
theorem C4_counterexample_reregister :
    (resonant_register c_pv sched1 2 .CLASSICAL .NEUTRAL).1 = .SUCCESS ∧
    (resonant_register c_pv sched1 2 .CLASSICAL .NEUTRAL).2.queen.classical_count = 2 :=
  ⟨rfl, rfl⟩

/-- Claim C4 (amended): `resonant_register` performs no already-registered
check at all.  Whenever the scheduler is initialized, the pid is in range and
`process_is_valid` holds — registered already or not — the call returns
`SUCCESS`, reinitializes the pid's RPCB from defaults (erasing any existing
couplings), and increments the per-class Queen counter by one more. -/
theorem C4_reregister_succeeds (proc_valid : Nat → Bool) (s : SchedState) (pid : Nat)
    (rcls : RCls) (hand : Handedness)
    (hup : s.sched_up = true) (hpid : pid < MAX_RESONANT_PROCESSES)
    (hvalid : proc_valid pid = true) :
    (resonant_register proc_valid s pid rcls hand).1 = .SUCCESS ∧
    class_count (resonant_register proc_valid s pid rcls hand).2.queen rcls
      = class_count s.queen rcls + 1 ∧
    ((resonant_register proc_valid s pid rcls hand).2.rpcb_table pid).magic = RPCB_MAGIC ∧
    ((resonant_register proc_valid s pid rcls hand).2.rpcb_table pid).coupled_pids = [] ∧
    ((resonant_register proc_valid s pid rcls hand).2.rpcb_table pid).rstate = .COHERENT := by
  unfold resonant_register
  rw [if_neg (by simp [hup]), if_neg (Nat.not_le.mpr hpid), if_neg (by simp [hvalid])]
  dsimp only
  refine ⟨rfl, ?_, ?_, ?_, ?_⟩
  · cases rcls <;> rfl
  · show (upd s.rpcb_table pid _ pid).magic = _
    rw [upd_same]
  · show (upd s.rpcb_table pid _ pid).coupled_pids = _
    rw [upd_same]
    rfl
  · show (upd s.rpcb_table pid _ pid).rstate = _
    rw [upd_same]

/-- Claim C4 witness: the amended statement applied to the second
registration of the already-registered pid 2. -/
theorem C4_reregister_succeeds_witness :
    (resonant_register c_pv sched1 2 .CLASSICAL .NEUTRAL).1 = .SUCCESS ∧
    class_count (resonant_register c_pv sched1 2 .CLASSICAL .NEUTRAL).2.queen .CLASSICAL
      = class_count sched1.queen .CLASSICAL + 1 ∧
    ((resonant_register c_pv sched1 2 .CLASSICAL .NEUTRAL).2.rpcb_table 2).magic
      = RPCB_MAGIC ∧
    ((resonant_register c_pv sched1 2 .CLASSICAL .NEUTRAL).2.rpcb_table 2).coupled_pids
      = [] ∧
    ((resonant_register c_pv sched1 2 .CLASSICAL .NEUTRAL).2.rpcb_table 2).rstate
      = .COHERENT :=
  C4_reregister_succeeds c_pv sched1 2 .CLASSICAL .NEUTRAL rfl (by decide) rfl

/-- Claim C5: evaluation at the failing inputs.  `resonant_couple(2,2)` on a
registered pid returns `SUCCESS` and appends 2 to its own peer list twice
(the two aliased appends), leaving `[3,4,2,2]` — the graph is not
irreflexive and the call is neither rejected nor a no-op.  And
`resonant_unregister(2)` with peers `[3,4]` decouples only pid 3: the loop
index advances while `resonant_decouple` shifts the list, so pid 4 is
skipped and keeps the stale edge `[2]` to the now-unregistered pid 2,
breaking symmetry. -/
theorem C5_self_couple_and_unregister_leftovers :
    (resonant_couple sched_coupled 2 2).1 = .SUCCESS ∧
    ((resonant_couple sched_coupled 2 2).2.rpcb_table 2).coupled_pids = [3, 4, 2, 2] ∧
    ((resonant_unregister sched_coupled 2).2.rpcb_table 2).magic = 0 ∧
    ((resonant_unregister sched_coupled 2).2.rpcb_table 3).coupled_pids = [] ∧
    ((resonant_unregister sched_coupled 2).2.rpcb_table 4).coupled_pids = [2] :=
  ⟨rfl, rfl, rfl, rfl, rfl⟩

/-- Claim C6: evaluation at the failing input.  After
`resonant_set_chiral(2, η = -2, Γ = 1)` the stored stability flag is `true`
although `|η/Γ| = 2 ≥ 1`: the source compares the SIGNED ratio `η/Γ`
against 1.0 with no absolute value (contradicting its own header comments
`asymmetry: |η/Γ| ratio` and `is_stable: |η/Γ| < 1.0`).  The final conjunct
shows the strictness part of the claim the code does satisfy: a ratio of
exactly 1.0 classifies as not stable. -/
theorem C6_stability_ignores_sign :
    ((resonant_set_chiral sched1 2 (-2) 1).2.rpcb_table 2).chiral.is_stable = true ∧
    ((resonant_set_chiral sched1 2 (-2) 1).2.rpcb_table 2).chiral.eta = -2 ∧
    ((resonant_set_chiral sched1 2 (-2) 1).2.rpcb_table 2).chiral.gamma = 1 ∧
    ¬ (|(-2 : ℚ) / 1| < 1) ∧
    ((resonant_set_chiral sched1 2 1 1).2.rpcb_table 2).chiral.is_stable = false := by
  refine ⟨?_, rfl, rfl, by norm_num, ?_⟩
  · show decide ((if (0 : ℚ) < 1 then (-2 : ℚ) / 1 else -2) < CHIRAL_STABLE_MAX) = true
    rw [if_pos (by norm_num)]
    rw [decide_eq_true_eq]
    norm_num [CHIRAL_STABLE_MAX]
  · show decide ((if (0 : ℚ) < 1 then (1 : ℚ) / 1 else 1) < CHIRAL_STABLE_MAX) = false
    rw [if_pos (by norm_num)]
    rw [decide_eq_false_iff_not]
    norm_num [CHIRAL_STABLE_MAX]

end Resonant

namespace Memory

/-! ### The frame allocator and page-table walker from `memory.c`.

Physical memory is a map `frame number → entry index → entry`; the walker
reads and writes only the `present`, `read_write`, `user`, `nx` and `frame`
bits of an entry, so only those are modelled.  Frame addresses are `Nat`
with `0` for `NULL`; a frame address and its frame number are related by
`PAGE_SHIFT`. -/

def PAGE_SIZE : Nat := 4096
def PAGE_SHIFT : Nat := 12
def MEM_READ : Nat := 0x01
def MEM_WRITE : Nat := 0x02
def MEM_EXECUTE : Nat := 0x04
def MEM_USER : Nat := 0x08

/-- `mem_result_t`.  `ALREADY_MAPPED` is declared in `memory.h` but never
returned by any function in `memory.c`. -/
inductive MemResult where
  | SUCCESS
  | OUT_OF_MEMORY
  | INVALID_ADDRESS
  | ALIGNMENT
  | PERMISSION
  | ALREADY_MAPPED
deriving DecidableEq, Repr

/-- The bits of a page-table entry that the walker touches. -/
structure Entry where
  present : Bool
  read_write : Bool
  user : Bool
  nx : Bool
  frame : Nat
deriving DecidableEq, Repr

def zero_entry : Entry :=
  { present := false, read_write := false, user := false, nx := false, frame := 0 }

/-- The state of `pmm` and `vmm`: the frame bitmap (bit `i` set = frame `i`
used, `total_frames` = list length), the two counters, physical memory as
tables of entries, and the PML4's frame number. -/
structure MemState where
  frame_bitmap : List Bool
  free_frames : Nat
  used_frames : Nat
  mem : Nat → Nat → Entry
  pml4_frame : Nat

/-- Write one page-table entry in physical memory. -/
def upd_entry (m : Nat → Nat → Entry) (t i : Nat) (e : Entry) : Nat → Nat → Entry :=
  upd m t (upd (m t) i e)

/-- Index of the first clear bit, as scanned by `pmm_alloc_frame`. -/
def first_zero_bit : List Bool → Option Nat
  | [] => none
  | false :: _ => some 0
  | true :: rest => (first_zero_bit rest).map (· + 1)

/-- `pmm_alloc_frame`: returns the frame ADDRESS (`i * PAGE_SIZE`), `0` when
no frame is free.  Note that the source would also hand out address `0` for
frame 0 — whose callers treat `0` as failure — but `pmm_init` always
pre-marks frame 0 used. -/
def pmm_alloc_frame (s : MemState) : Nat × MemState :=
  match first_zero_bit s.frame_bitmap with
  | none => (0, s)
  | some i =>
    (i * PAGE_SIZE,
     { s with frame_bitmap := s.frame_bitmap.set i true,
              free_frames := s.free_frames - 1,
              used_frames := s.used_frames + 1 })

/-- `(virt >> shift) & 0x1FF`. -/
def addr_index (virt shift : Nat) : Nat := (virt >>> shift) % 512

/-- One upper-level step of `memory_map_page`: if the entry at
`mem[tbl][idx]` is present, follow its frame; otherwise allocate a frame
(`none` on failure), `memset` it to zero, and write
`present = 1, read_write = 1, user = 0, frame = addr >> PAGE_SHIFT` into the
entry (the `nx` bit of an intermediate entry is not written). -/
def walk_or_alloc (s : MemState) (tbl idx : Nat) : MemState × Option Nat :=
  let e := s.mem tbl idx
  if e.present then (s, some e.frame)
  else
    let r := pmm_alloc_frame s
    if r.1 = 0 then (r.2, none)
    else
      let f := r.1 >>> PAGE_SHIFT
      let s1 := { r.2 with mem := upd r.2.mem f (fun _ => zero_entry) }
      let e' := { e with present := true, read_write := true, user := false, frame := f }
      ({ s1 with mem := upd_entry s1.mem tbl idx e' }, some f)

/-- The leaf entry `memory_map_page` writes for `phys` and `permissions`. -/
def leaf_entry (phys permissions : Nat) : Entry :=
  { present := true
    read_write := decide (permissions &&& MEM_WRITE ≠ 0)
    user := decide (permissions &&& MEM_USER ≠ 0)
    nx := decide (permissions &&& MEM_EXECUTE = 0)
    frame := phys >>> PAGE_SHIFT }

/-- `memory_map_page`.  There is NO presence check on the leaf: an existing
mapping is silently overwritten.  On an intermediate allocation failure the
tables already allocated stay linked (no unwinding). -/
def memory_map_page (s : MemState) (virt_addr phys_addr permissions : Nat) :
    MemResult × MemState :=
  let r4 := walk_or_alloc s s.pml4_frame (addr_index virt_addr 39)
  match r4.2 with
  | none => (.OUT_OF_MEMORY, r4.1)
  | some f3 =>
    let r3 := walk_or_alloc r4.1 f3 (addr_index virt_addr 30)
    match r3.2 with
    | none => (.OUT_OF_MEMORY, r3.1)
    | some f2 =>
      let r2 := walk_or_alloc r3.1 f2 (addr_index virt_addr 21)
      match r2.2 with
      | none => (.OUT_OF_MEMORY, r2.1)
      | some f1 =>
        let s' := r2.1
        (.SUCCESS, { s' with mem := upd_entry s'.mem f1 (addr_index virt_addr 12)
                               (leaf_entry phys_addr permissions) })

/-- `memory_unmap_page`: walks the four levels, failing with
`INVALID_ADDRESS` if any entry is absent; clears ONLY the `present` and
`frame` bits of the leaf (the permission bits stay), and frees nothing. -/
def memory_unmap_page (s : MemState) (virt_addr : Nat) : MemResult × MemState :=
  let e4 := s.mem s.pml4_frame (addr_index virt_addr 39)
  if ¬ e4.present then (.INVALID_ADDRESS, s)
  else
    let e3 := s.mem e4.frame (addr_index virt_addr 30)
    if ¬ e3.present then (.INVALID_ADDRESS, s)
    else
      let e2 := s.mem e3.frame (addr_index virt_addr 21)
      if ¬ e2.present then (.INVALID_ADDRESS, s)
      else
        let e1 := s.mem e2.frame (addr_index virt_addr 12)
        if ¬ e1.present then (.INVALID_ADDRESS, s)
        else
          let e1x := { e1 with present := false, frame := 0 }
          (.SUCCESS, { s with mem := upd_entry s.mem e2.frame (addr_index virt_addr 12) e1x })

/-- A small machine of 8 frames: frame 0 is the kernel/NULL frame, frame 1
holds the zeroed PML4, frames 2..7 are free. -/
def mem0 : MemState :=
  { frame_bitmap := [true, true, false, false, false, false, false, false]
    free_frames := 6
    used_frames := 2
    mem := fun _ _ => zero_entry
    pml4_frame := 1 }

/-- `mem0` after `memory_map_page(0x1000, 0x5000, R|W)`: the map allocated
the PDPT in frame 2, the PD in frame 3 and the PT in frame 4, and wrote the
leaf at `mem[4][1]` with frame 5. -/
def c7_mapped : MemState := (memory_map_page mem0 0x1000 0x5000 3).2

/-- `mem0` with every frame used: any map needing an intermediate table must
fail. -/
def mem_full : MemState :=
  { frame_bitmap := [true, true]
    free_frames := 0
    used_frames := 2
    mem := fun _ _ => zero_entry
    pml4_frame := 1 }

/-- Claim C7: evaluation at the failing input.  Mapping virtual address
0x1000 a SECOND time (its leaf `mem[4][1]` is already present with frame 5)
returns `SUCCESS`, not `ALREADY_MAPPED`, and silently overwrites the leaf's
frame with the new physical frame 6: `memory_map_page` never checks the
leaf's present bit (the `MEM_ERROR_ALREADY_MAPPED` code is declared in
`memory.h` and never returned).  The last conjunct shows the claim's
`OUT_OF_MEMORY` half, which the code does satisfy: with no free frame, the
intermediate-table allocation fails and the map returns `OUT_OF_MEMORY`. -/
theorem C7_double_map_overwrites :
    ((c7_mapped.mem 4 1).present = true ∧ (c7_mapped.mem 4 1).frame = 5) ∧
    (memory_map_page c7_mapped 0x1000 0x6000 3).1 = .SUCCESS ∧
    (memory_map_page c7_mapped 0x1000 0x6000 3).1 ≠ .ALREADY_MAPPED ∧
    ((memory_map_page c7_mapped 0x1000 0x6000 3).2.mem 4 1).frame = 6 ∧
    (memory_map_page mem_full 0x1000 0x5000 3).1 = .OUT_OF_MEMORY := by
  refine ⟨⟨rfl, rfl⟩, rfl, by decide, rfl, rfl⟩

theorem upd_upd_same {α : Type} (f : Nat → α) (i : Nat) (a b : α) :
    upd (upd f i a) i b = upd f i b := by
  funext j
  by_cases e : j = i <;> simp [upd, e]

theorem upd_eq_self {α : Type} (f : Nat → α) (i : Nat) : upd f i (f i) = f := by
  funext j
  by_cases e : j = i <;> simp [upd, e]

theorem upd_entry_same (m : Nat → Nat → Entry) (t i : Nat) (e : Entry) :
    upd_entry m t i e t i = e := by
  unfold upd_entry
  rw [upd_same, upd_same]

theorem upd_entry_other (m : Nat → Nat → Entry) (t i : Nat) (e : Entry) (u j : Nat)
    (h : ¬ (u = t ∧ j = i)) : upd_entry m t i e u j = m u j := by
  unfold upd_entry
  by_cases hu : u = t
  · subst hu
    rw [upd_same]
    have hj : j ≠ i := fun hj => h ⟨rfl, hj⟩
    exact upd_other _ _ _ _ hj
  · rw [upd_other _ _ _ _ hu]

theorem upd_entry_collapse (m : Nat → Nat → Entry) (t i : Nat) (a b : Entry) :
    upd_entry (upd_entry m t i a) t i b = upd_entry m t i b := by
  unfold upd_entry
  rw [upd_same, upd_upd_same, upd_upd_same]

theorem upd_entry_self (m : Nat → Nat → Entry) (t i : Nat) :
    upd_entry m t i (m t i) = m := by
  unfold upd_entry
  rw [upd_eq_self, upd_eq_self]

theorem walk_or_alloc_present (s : MemState) (tbl idx : Nat)
    (h : (s.mem tbl idx).present = true) :
    walk_or_alloc s tbl idx = (s, some ((s.mem tbl idx).frame)) := by
  unfold walk_or_alloc
  rw [if_pos h]

/-- `c7_mapped` after `memory_unmap_page(0x1000)`. -/
def c8_unmapped : MemState := (memory_unmap_page c7_mapped 0x1000).2

/-- Claim C8 counterexample: mapping `0x1000` into the fresh `mem0` (which
allocates the PDPT, PD and PT) and unmapping it again does NOT return the
system to its earlier state: the three intermediate table frames stay
allocated (`free_frames` drops from 6 to 3) and the leaf keeps the
`read_write` permission bit written by the map (it was 0 before). -/
theorem C8_counterexample_roundtrip_leaks :
    (memory_unmap_page c7_mapped 0x1000).1 = .SUCCESS ∧
    mem0.free_frames = 6 ∧
    c8_unmapped.free_frames = 3 ∧
    (mem0.mem 4 1).read_write = false ∧
    (c8_unmapped.mem 4 1).read_write = true :=
  ⟨rfl, rfl, rfl, rfl, rfl⟩

/-- Claim C8 (amended): `map_page(v,p,perms)` followed by `unmap_page(v)`
returns the page tables and frame allocator exactly to their earlier state
PROVIDED the three intermediate tables on v's path are already present, the
prior leaf entry was non-present with frame 0 and permission bits equal to
those derived from `perms`, and the leaf slot does not alias an entry on its
own walk path.  In general the round trip is not the identity: intermediate
tables allocated by the map are never freed, and the unmap clears only the
`present` and `frame` bits, leaving the permission bits the map wrote. -/
theorem C8_map_unmap_roundtrip (s : MemState) (virt_addr phys_addr permissions : Nat)
    (f3 f2 f1 : Nat)
    (h4p : (s.mem s.pml4_frame (addr_index virt_addr 39)).present = true)
    (h4f : (s.mem s.pml4_frame (addr_index virt_addr 39)).frame = f3)
    (h3p : (s.mem f3 (addr_index virt_addr 30)).present = true)
    (h3f : (s.mem f3 (addr_index virt_addr 30)).frame = f2)
    (h2p : (s.mem f2 (addr_index virt_addr 21)).present = true)
    (h2f : (s.mem f2 (addr_index virt_addr 21)).frame = f1)
    (h1 : s.mem f1 (addr_index virt_addr 12) =
      { leaf_entry phys_addr permissions with present := false, frame := 0 })
    (hd4 : ¬ (s.pml4_frame = f1 ∧ addr_index virt_addr 39 = addr_index virt_addr 12))
    (hd3 : ¬ (f3 = f1 ∧ addr_index virt_addr 30 = addr_index virt_addr 12))
    (hd2 : ¬ (f2 = f1 ∧ addr_index virt_addr 21 = addr_index virt_addr 12)) :
    (memory_map_page s virt_addr phys_addr permissions).1 = .SUCCESS ∧
    memory_unmap_page (memory_map_page s virt_addr phys_addr permissions).2 virt_addr
      = (.SUCCESS, s) := by
  have hmap : memory_map_page s virt_addr phys_addr permissions =
      (.SUCCESS, { s with mem := upd_entry s.mem f1 (addr_index virt_addr 12)
                            (leaf_entry phys_addr permissions) }) := by
    unfold memory_map_page
    rw [walk_or_alloc_present s _ _ h4p, h4f]
    dsimp only
    rw [walk_or_alloc_present s _ _ h3p, h3f]
    dsimp only
    rw [walk_or_alloc_present s _ _ h2p, h2f]
  rw [hmap]
  refine ⟨rfl, ?_⟩
  unfold memory_unmap_page
  dsimp only
  rw [upd_entry_other _ _ _ _ _ _ hd4, h4f]
  rw [if_neg (by simp [h4p])]
  rw [upd_entry_other _ _ _ _ _ _ hd3, h3f]
  rw [if_neg (by simp [h3p])]
  rw [upd_entry_other _ _ _ _ _ _ hd2, h2f]
  rw [if_neg (by simp [h2p])]
  rw [upd_entry_same]
  rw [if_neg (by simp [leaf_entry])]
  rw [upd_entry_collapse]
  rw [show ({ leaf_entry phys_addr permissions with present := false, frame := 0 } : Entry)
      = s.mem f1 (addr_index virt_addr 12) from h1.symm]
  rw [upd_entry_self]

/-- Claim C8 witness: the amended round trip applied after a first
map/unmap pair established the intermediate tables (frames 2, 3, 4) and a
clean non-present leaf; mapping physical `0x7000` and unmapping restores the
state exactly. -/
theorem C8_map_unmap_roundtrip_witness :
    (memory_map_page c8_unmapped 0x1000 0x7000 3).1 = .SUCCESS ∧
    memory_unmap_page (memory_map_page c8_unmapped 0x1000 0x7000 3).2 0x1000
      = (.SUCCESS, c8_unmapped) :=
  C8_map_unmap_roundtrip c8_unmapped 0x1000 0x7000 3 2 3 4 rfl rfl rfl rfl rfl rfl rfl
    (by decide) (by decide) (by decide)

end Memory

end QOS
